import Mathlib

/-!
# Conformance suite of the directory backend (src/directory/testing.go)

The development embeds `TestBackend`, the helper that drives a `Backend`
through a fixed sequence of calls and stops at the first failed check.

* A `Backend` is a deterministic machine over a state type `σ`; every Go
  method becomes a function that takes the state and returns its results
  together with the next state.
* `TestBackend` hands the backend pointers to its records and goes on using
  the same objects. A method that takes a record therefore also returns the
  caller's record as the call left it, and `TestBackend` continues with that.
* A run of `TestBackend` is recorded as a `Run`: how the run ended, the
  backend state it left, and the log of every call it made on the backend and
  on blob handles, with the arguments and the results of the call.
* Go pointers and interfaces that may be nil are `Option` values; a Go
  `error` is `Option Error`, with `none` for nil.
-/

namespace directory

/-! ## Data model -/

/-- A non-nil Go error value, represented by its message. -/
abbrev Error := String

/-- A byte sequence. -/
abbrev Bytes := List UInt8

/-- The bytes of the Go string literal "bar". -/
def bar : Bytes := [98, 97, 114]

/-- Modelled from the spec: the Lookup struct, declared outside src/. It has
the four key fields that testing.go populates; a field left out of a Go
composite literal is the empty string. -/
structure Lookup where
  AppID : String := ""
  Infra : String := ""
  Foundation : String := ""
  InfraFlavor : String := ""
deriving DecidableEq, Repr

/-- A Go value of type map[string]string: none is the nil map, some l is a
non-nil map holding the entries of l, where the first entry of a key is the
one that counts. -/
abbrev GoMap := Option (List (String × String))

/-- Modelled from the spec: the Infra struct, declared outside src/, with the
fields testing.go reads and writes (Lookup, ID, Outputs). -/
structure Infra where
  Lookup : directory.Lookup
  ID : String := ""
  Outputs : GoMap := none
deriving DecidableEq, Repr

/-- Modelled from the spec: the Deploy struct, declared outside src/, with the
fields testing.go reads and writes (Lookup, ID). -/
structure Deploy where
  Lookup : directory.Lookup
  ID : String := ""
deriving DecidableEq, Repr

/-- Modelled from the spec: the Dev struct, declared outside src/, with the
fields testing.go reads and writes (Lookup, ID). -/
structure Dev where
  Lookup : directory.Lookup
  ID : String := ""
deriving DecidableEq, Repr

/-- What io.Copy observes of a non-nil io.Reader: either the reader delivers
bytes and then ends, at EOF (err is none) or with a read error, or a call of
its Read method panics. -/
inductive Reader where
  | stream (bytes : Bytes) (err : Option Error)
  | panics
deriving DecidableEq, Repr

/-- The reader strings.NewReader builds: it delivers the bytes and ends at EOF. -/
def NewReader (bs : Bytes) : Reader := Reader.stream bs none

/-- Modelled from the spec: the BlobData struct, declared outside src/: "a
readable stream of bytes plus a release step". Data is an interface value and
may be nil. The release step is the Close method; a call of it is recorded in
the log of the run. -/
structure BlobData where
  Data : Option Reader
deriving DecidableEq, Repr

/-- The results of a backend call that takes no record: the returned value,
the returned error and the state of the backend after the call. -/
structure Ret (α σ : Type) where
  val : α
  err : Option Error
  state : σ

/-- The results of a backend call that takes a pointer to a record of the
caller: the caller's record as the call left it, the returned value, the
returned error and the state of the backend after the call. -/
structure RecRet (ρ α σ : Type) where
  record : ρ
  val : α
  err : Option Error
  state : σ

/-- Modelled from the spec: the Backend interface, declared outside src/
(spec section 6). Get takes a pointer to the caller's record and returns a
record or nil, and an error. Put and DeleteDev take a pointer to the caller's
record and return an error. Each of them may write to the caller's record
behind the pointer, any field of it. A result and an error are returned side
by side, as in Go: either may be nil whatever the other is. -/
structure Backend (σ : Type) where
  GetBlob : String → σ → Ret (Option BlobData) σ
  PutBlob : String → BlobData → σ → Ret Unit σ
  GetInfra : Infra → σ → RecRet Infra (Option Infra) σ
  PutInfra : Infra → σ → RecRet Infra Unit σ
  GetDeploy : Deploy → σ → RecRet Deploy (Option Deploy) σ
  PutDeploy : Deploy → σ → RecRet Deploy Unit σ
  GetDev : Dev → σ → RecRet Dev (Option Dev) σ
  PutDev : Dev → σ → RecRet Dev Unit σ
  DeleteDev : Dev → σ → RecRet Dev Unit σ

/-! ## reflect.DeepEqual on the types the suite compares -/

/-- The value a key is bound to in a list of map entries. -/
def mapLookup (m : List (String × String)) (k : String) : Option String :=
  (m.find? (fun e => e.1 == k)).map (fun e => e.2)

/-- The distinct keys of a list of map entries. -/
def mapKeys (m : List (String × String)) : List String :=
  (m.map (fun e => e.1)).eraseDups

/-- The reflect.DeepEqual relation on map[string]string: both nil or both
non-nil, the same number of keys, and every key of the first bound to the same
value in the second. -/
def mapDeepEqual : GoMap → GoMap → Bool
  | none, none => true
  | some a, some b =>
    (mapKeys a).length == (mapKeys b).length
      && (mapKeys a).all (fun k => mapLookup a k == mapLookup b k)
  | _, _ => false

/-- The reflect.DeepEqual relation on Infra structs, field by field. -/
def Infra.DeepEqual (a b : Infra) : Bool :=
  a.Lookup == b.Lookup && a.ID == b.ID && mapDeepEqual a.Outputs b.Outputs

/-- The reflect.DeepEqual relation on Deploy structs, field by field. -/
def Deploy.DeepEqual (a b : Deploy) : Bool :=
  a.Lookup == b.Lookup && a.ID == b.ID

/-- The reflect.DeepEqual relation on Dev structs, field by field. -/
def Dev.DeepEqual (a b : Dev) : Bool :=
  a.Lookup == b.Lookup && a.ID == b.ID

/-- The reflect.DeepEqual relation on two pointers: two nil pointers are
equal, a nil and a non-nil pointer are not, and two non-nil pointers are equal
when the values they point to are. -/
def ptrDeepEqual {α : Type} (eq : α → α → Bool) : Option α → Option α → Bool
  | none, none => true
  | some a, some b => eq a b
  | _, _ => false

/-! ## Runs of the suite -/

/-- How a run of TestBackend ends: it returns normally, it stops in t.Fatalf
or t.Fatal (the source line of the call and its format string), or it stops in
a panic (the source line). -/
inductive Outcome where
  | pass
  | fatal (line : Nat) (format : String)
  | panic (line : Nat)
deriving DecidableEq, Repr

/-- One call made by TestBackend, with its arguments and its results. For a
call that takes a record, arg is the caller's record when the call is made and
after is the same record when the call returns. -/
inductive Event where
  | GetBlob (key : String) (data : Option BlobData) (err : Option Error)
  | PutBlob (key : String) (data : BlobData) (err : Option Error)
  | Close (data : BlobData)
  | GetInfra (arg after : Infra) (res : Option Infra) (err : Option Error)
  | PutInfra (arg after : Infra) (err : Option Error)
  | GetDeploy (arg after : Deploy) (res : Option Deploy) (err : Option Error)
  | PutDeploy (arg after : Deploy) (err : Option Error)
  | GetDev (arg after : Dev) (res : Option Dev) (err : Option Error)
  | PutDev (arg after : Dev) (err : Option Error)
  | DeleteDev (arg after : Dev) (err : Option Error)
deriving DecidableEq, Repr

/-- A run of (a section of) TestBackend: how it ended, the backend state it
left, and the calls it made, in order. -/
structure Run (σ : Type) where
  outcome : Outcome
  state : σ
  log : List Event

/-- Sequencing of two sections: the second runs on the state the first left,
and only when the first ran to its end. -/
def Run.andThen {σ : Type} (r : Run σ) (k : σ → Run σ) : Run σ :=
  match r.outcome with
  | Outcome.pass => ⟨(k r.state).outcome, (k r.state).state, r.log ++ (k r.state).log⟩
  | _ => r

/-- The blob source of line 32: BlobData with Data: strings.NewReader("bar"). -/
def barData : BlobData := ⟨some (NewReader bar)⟩

/-- Lines 17 to 49 of testing.go, the Blob section. Line 42 panics when data
is nil, when data.Data is nil and when a Read of data.Data panics; line 43,
the Close after io.Copy, is then not reached. -/
def TestBackend_Blob {σ : Type} (b : Backend σ) (s : σ) : Run σ :=
  -- GetBlob (doesn't exist)
  let r1 := b.GetBlob "foo" s
  let l1 := [Event.GetBlob "foo" r1.val r1.err]
  if r1.err ≠ none then ⟨Outcome.fatal 24 "GetBlob error: %s", r1.state, l1⟩ else
  match r1.val with
  | some d => ⟨Outcome.fatal 28 "GetBlob should be nil data", r1.state, l1 ++ [Event.Close d]⟩
  | none =>
  -- PutBlob
  let r2 := b.PutBlob "foo" barData r1.state
  let l2 := l1 ++ [Event.PutBlob "foo" barData r2.err]
  if r2.err ≠ none then ⟨Outcome.fatal 34 "PutBlob error: %s", r2.state, l2⟩ else
  -- GetBlob (exists)
  let r3 := b.GetBlob "foo" r2.state
  let l3 := l2 ++ [Event.GetBlob "foo" r3.val r3.err]
  if r3.err ≠ none then ⟨Outcome.fatal 40 "GetBlob error: %s", r3.state, l3⟩ else
  match r3.val with
  | none => ⟨Outcome.panic 42, r3.state, l3⟩
  | some d =>
  match d.Data with
  | none => ⟨Outcome.panic 42, r3.state, l3⟩
  | some Reader.panics => ⟨Outcome.panic 42, r3.state, l3⟩
  | some (Reader.stream bytes err) =>
  let buf : Bytes := [] ++ bytes
  let l4 := l3 ++ [Event.Close d]
  if err ≠ none then ⟨Outcome.fatal 45 "GetBlob error: %s", r3.state, l4⟩ else
  if buf ≠ bar then ⟨Outcome.fatal 48 "GetBlob bad data: %s", r3.state, l4⟩ else
  ⟨Outcome.pass, r3.state, l4⟩

/-- The map literal of lines 66 and 97: map[string]string with "foo": "bar". -/
def fooBar : GoMap := some [("foo", "bar")]

/-- Lines 51 to 84 of testing.go, the Infra section up to the first record.
The variable infra is the record behind the pointer: after each call it is
the record as the backend left it. -/
def TestBackend_Infra {σ : Type} (b : Backend σ) (s : σ) : Run σ :=
  -- GetInfra (doesn't exist)
  let infra : Infra := { Lookup := { Infra := "foo" } }
  let r1 := b.GetInfra infra s
  let l1 := [Event.GetInfra infra r1.record r1.val r1.err]
  let infra := r1.record
  if r1.err ≠ none then
    ⟨Outcome.fatal 59 "GetInfra (non-exist) error: %s", r1.state, l1⟩ else
  if r1.val ≠ none then
    ⟨Outcome.fatal 62 "GetInfra (non-exist): infra should be nil", r1.state, l1⟩ else
  -- PutInfra (doesn't exist)
  let infra : Infra := { infra with Outputs := fooBar }
  if infra.ID ≠ "" then
    ⟨Outcome.fatal 68 "PutInfra: ID should be empty before set", r1.state, l1⟩ else
  let r2 := b.PutInfra infra r1.state
  let l2 := l1 ++ [Event.PutInfra infra r2.record r2.err]
  let infra := r2.record
  if r2.err ≠ none then ⟨Outcome.fatal 71 "PutInfra err: %s", r2.state, l2⟩ else
  if infra.ID = "" then ⟨Outcome.fatal 74 "PutInfra: infra ID not set", r2.state, l2⟩ else
  -- GetInfra (exists)
  let r3 := b.GetInfra infra r2.state
  let l3 := l2 ++ [Event.GetInfra infra r3.record r3.val r3.err]
  let infra := r3.record
  if r3.err ≠ none then ⟨Outcome.fatal 80 "GetInfra (exist) error: %s", r3.state, l3⟩ else
  if ptrDeepEqual Infra.DeepEqual r3.val (some infra) = false then
    ⟨Outcome.fatal 83 "GetInfra (exist) bad: %#v", r3.state, l3⟩ else
  ⟨Outcome.pass, r3.state, l3⟩

/-- Lines 86 to 115 of testing.go, the Infra section for the record with a
foundation; line 87 builds a new record. -/
def TestBackend_InfraFoundation {σ : Type} (b : Backend σ) (s : σ) : Run σ :=
  -- GetInfra with foundation (doesn't exist)
  let infra : Infra := { Lookup := { Infra := "foo", Foundation := "bar" } }
  let r4 := b.GetInfra infra s
  let l4 := [Event.GetInfra infra r4.record r4.val r4.err]
  let infra := r4.record
  if r4.err ≠ none then
    ⟨Outcome.fatal 90 "GetInfra (non-exist) error: %s", r4.state, l4⟩ else
  if r4.val ≠ none then
    ⟨Outcome.fatal 93 "GetInfra (non-exist): infra should be nil", r4.state, l4⟩ else
  -- PutInfra with foundation (doesn't exist)
  let infra : Infra := { infra with Outputs := fooBar }
  if infra.ID ≠ "" then
    ⟨Outcome.fatal 99 "PutInfra: ID should be empty before set", r4.state, l4⟩ else
  let r5 := b.PutInfra infra r4.state
  let l5 := l4 ++ [Event.PutInfra infra r5.record r5.err]
  let infra := r5.record
  if r5.err ≠ none then ⟨Outcome.fatal 102 "PutInfra err: %s", r5.state, l5⟩ else
  if infra.ID = "" then ⟨Outcome.fatal 105 "PutInfra: infra ID not set", r5.state, l5⟩ else
  -- GetInfra with foundation (exists)
  let r6 := b.GetInfra infra r5.state
  let l6 := l5 ++ [Event.GetInfra infra r6.record r6.val r6.err]
  let infra := r6.record
  if r6.err ≠ none then ⟨Outcome.fatal 111 "GetInfra (exist) error: %s", r6.state, l6⟩ else
  if ptrDeepEqual Infra.DeepEqual r6.val (some infra) = false then
    ⟨Outcome.fatal 114 "GetInfra (exist) bad: %#v", r6.state, l6⟩ else
  ⟨Outcome.pass, r6.state, l6⟩

/-- Lines 117 to 150 of testing.go, the Deploy section. -/
def TestBackend_Deploy {σ : Type} (b : Backend σ) (s : σ) : Run σ :=
  -- GetDeploy (doesn't exist)
  let deploy : Deploy := { Lookup := { AppID := "foo", Infra := "bar", InfraFlavor := "baz" } }
  let r1 := b.GetDeploy deploy s
  let l1 := [Event.GetDeploy deploy r1.record r1.val r1.err]
  let deploy := r1.record
  if r1.err ≠ none then
    ⟨Outcome.fatal 126 "GetDeploy (non-exist) error: %s", r1.state, l1⟩ else
  if r1.val ≠ none then
    ⟨Outcome.fatal 129 "GetDeploy (non-exist): result should be nil", r1.state, l1⟩ else
  -- PutDeploy (doesn't exist)
  if deploy.ID ≠ "" then
    ⟨Outcome.fatal 134 "PutDeploy: ID should be empty before set", r1.state, l1⟩ else
  let r2 := b.PutDeploy deploy r1.state
  let l2 := l1 ++ [Event.PutDeploy deploy r2.record r2.err]
  let deploy := r2.record
  if r2.err ≠ none then ⟨Outcome.fatal 137 "PutDeploy err: %s", r2.state, l2⟩ else
  if deploy.ID = "" then ⟨Outcome.fatal 140 "PutDeploy: deploy ID not set", r2.state, l2⟩ else
  -- GetDeploy (exists)
  let r3 := b.GetDeploy deploy r2.state
  let l3 := l2 ++ [Event.GetDeploy deploy r3.record r3.val r3.err]
  let deploy := r3.record
  if r3.err ≠ none then ⟨Outcome.fatal 146 "GetDeploy (exist) error: %s", r3.state, l3⟩ else
  if ptrDeepEqual Deploy.DeepEqual r3.val (some deploy) = false then
    ⟨Outcome.fatal 149 "GetDeploy (exist) bad: %#v", r3.state, l3⟩ else
  ⟨Outcome.pass, r3.state, l3⟩

/-- Lines 186 to 203 of testing.go, the end of the Dev section, entered with
the record dev as line 178 left it. -/
def TestBackend_DevDelete {σ : Type} (b : Backend σ) (dev : Dev) (s : σ) : Run σ :=
  -- DeleteDev (exists)
  let r4 := b.DeleteDev dev s
  let l4 := [Event.DeleteDev dev r4.record r4.err]
  let dev := r4.record
  if r4.err ≠ none then ⟨Outcome.fatal 189 "DeleteDev error: %s", r4.state, l4⟩ else
  let r5 := b.GetDev dev r4.state
  let l5 := l4 ++ [Event.GetDev dev r5.record r5.val r5.err]
  let dev := r5.record
  if r5.err ≠ none then
    ⟨Outcome.fatal 193 "GetDev (non-exist) error: %s", r5.state, l5⟩ else
  if r5.val ≠ none then
    ⟨Outcome.fatal 196 "GetDev (non-exist): result should be nil", r5.state, l5⟩ else
  -- DeleteDev (doesn't exist)
  let r6 := b.DeleteDev dev r5.state
  let l6 := l5 ++ [Event.DeleteDev dev r6.record r6.err]
  if r6.err ≠ none then ⟨Outcome.fatal 202 "DeleteDev error: %s", r6.state, l6⟩ else
  ⟨Outcome.pass, r6.state, l6⟩

/-- Lines 152 to 203 of testing.go, the Dev section: lines 156 to 184, then
the lines from 186 on with the same record. -/
def TestBackend_Dev {σ : Type} (b : Backend σ) (s : σ) : Run σ :=
  -- GetDev (doesn't exist)
  let dev : Dev := { Lookup := { AppID := "foo" } }
  let r1 := b.GetDev dev s
  let l1 := [Event.GetDev dev r1.record r1.val r1.err]
  let dev := r1.record
  if r1.err ≠ none then
    ⟨Outcome.fatal 160 "GetDev (non-exist) error: %s", r1.state, l1⟩ else
  if r1.val ≠ none then
    ⟨Outcome.fatal 163 "GetDev (non-exist): result should be nil", r1.state, l1⟩ else
  -- PutDev (doesn't exist)
  if dev.ID ≠ "" then
    ⟨Outcome.fatal 168 "PutDev: ID should be empty before set", r1.state, l1⟩ else
  let r2 := b.PutDev dev r1.state
  let l2 := l1 ++ [Event.PutDev dev r2.record r2.err]
  let dev := r2.record
  if r2.err ≠ none then ⟨Outcome.fatal 171 "PutDev err: %s", r2.state, l2⟩ else
  if dev.ID = "" then ⟨Outcome.fatal 174 "PutDev: dev ID not set", r2.state, l2⟩ else
  -- GetDev (exists)
  let r3 := b.GetDev dev r2.state
  let l3 := l2 ++ [Event.GetDev dev r3.record r3.val r3.err]
  let dev := r3.record
  if r3.err ≠ none then ⟨Outcome.fatal 180 "GetDev (exist) error: %s", r3.state, l3⟩ else
  if ptrDeepEqual Dev.DeepEqual r3.val (some dev) = false then
    ⟨Outcome.fatal 183 "GetDev (exist) bad: %#v", r3.state, l3⟩ else
  Run.andThen ⟨Outcome.pass, r3.state, l3⟩ (TestBackend_DevDelete b dev)

/-- The function TestBackend of testing.go (lines 13 to 204) on backend b in
state s: its sections in source order, each entered only when the one before
it ran to its end. -/
def TestBackend {σ : Type} (b : Backend σ) (s : σ) : Run σ :=
  ((((TestBackend_Blob b s).andThen (TestBackend_Infra b)).andThen
    (TestBackend_InfraFoundation b)).andThen (TestBackend_Deploy b)).andThen
    (TestBackend_Dev b)

/-! ## Observations on the log of a run -/

/-- The handles that the GetBlob calls of a log returned (non-nil results),
whatever the error returned with them. -/
def handlesReturned (log : List Event) : List BlobData :=
  log.filterMap fun e =>
    match e with
    | Event.GetBlob _ (some d) _ => some d
    | _ => none

/-- The handles that the GetBlob calls of a log returned together with a nil
error. -/
def handlesDelivered (log : List Event) : List BlobData :=
  log.filterMap fun e =>
    match e with
    | Event.GetBlob _ (some d) none => some d
    | _ => none

/-- The handles on which a log records a call of Close, one entry per call. -/
def handlesClosed (log : List Event) : List BlobData :=
  log.filterMap fun e =>
    match e with
    | Event.Close d => some d
    | _ => none

/-- The entity class of the record a Put call was made for; none for a call
that is not a Put of an entity record. -/
def Event.putClass : Event → Option String
  | Event.PutInfra _ _ _ => some "Infra"
  | Event.PutDeploy _ _ _ => some "Deploy"
  | Event.PutDev _ _ _ => some "Dev"
  | _ => none

/-- The record a GetInfra call was made with; none for any other call. -/
def Event.getInfraArg : Event → Option Infra
  | Event.GetInfra arg _ _ _ => some arg
  | _ => none

/-! ## The contract of spec sections 4.1 and 4.2 -/

/-- The function that agrees with f except at k, where it is v. -/
def upd {κ α : Type} [DecidableEq κ] (f : κ → Option α) (k : κ) (v : Option α) :
    κ → Option α :=
  fun x => if x = k then v else f x

/-- The content of a directory: the blob stored under each name and the
record stored under each Lookup, per entity class; none where nothing is
stored. -/
structure Store where
  blobs : String → Option Bytes
  infras : Lookup → Option Infra
  deploys : Lookup → Option Deploy
  devs : Lookup → Option Dev

/-- The content with the blob under name k replaced by v. -/
def Store.setBlob (st : Store) (k : String) (v : Option Bytes) : Store :=
  ⟨upd st.blobs k v, st.infras, st.deploys, st.devs⟩

/-- The content with the Infra record under Lookup k replaced by v. -/
def Store.setInfra (st : Store) (k : Lookup) (v : Option Infra) : Store :=
  ⟨st.blobs, upd st.infras k v, st.deploys, st.devs⟩

/-- The content with the Deploy record under Lookup k replaced by v. -/
def Store.setDeploy (st : Store) (k : Lookup) (v : Option Deploy) : Store :=
  ⟨st.blobs, st.infras, upd st.deploys k v, st.devs⟩

/-- The content with the Dev record under Lookup k replaced by v. -/
def Store.setDev (st : Store) (k : Lookup) (v : Option Dev) : Store :=
  ⟨st.blobs, st.infras, st.deploys, upd st.devs k v⟩

/-- The directory that stores nothing. -/
def Store.empty : Store :=
  ⟨fun _ => none, fun _ => none, fun _ => none, fun _ => none⟩

/-- Backend b honours the contract of spec sections 4.1 and 4.2, its state s
standing for the directory content (content s):
Get of an unstored key returns nil and no error; Get of a stored key returns,
with no error, a record deeply equal to the stored one (for a blob, a handle
whose stream delivers the stored bytes and ends at EOF); Get leaves the
content and the caller's record as they are;
Put of a record whose Lookup is unstored assigns a non-empty ID onto the
caller's record, writes nothing else to it, returns no error and stores the
caller's record, with that ID, under its Lookup; PutBlob of a source that
reads without error stores its bytes under the name; DeleteDev returns no
error, leaves the caller's record as it is and leaves nothing stored under the
Lookup; and Put, PutBlob and DeleteDev change nothing else. -/
structure Honours {σ : Type} (b : Backend σ) (content : σ → Store) : Prop where
  getBlob_absent : ∀ s k, (content s).blobs k = none →
    (b.GetBlob k s).val = none ∧ (b.GetBlob k s).err = none
      ∧ content (b.GetBlob k s).state = content s
  getBlob_present : ∀ s k bs, (content s).blobs k = some bs →
    (∃ d, (b.GetBlob k s).val = some d ∧ d.Data = some (NewReader bs))
      ∧ (b.GetBlob k s).err = none ∧ content (b.GetBlob k s).state = content s
  putBlob : ∀ s k d bs, d.Data = some (NewReader bs) →
    (b.PutBlob k d s).err = none
      ∧ content (b.PutBlob k d s).state = (content s).setBlob k (some bs)
  getInfra_absent : ∀ s r, (content s).infras r.Lookup = none →
    (b.GetInfra r s).val = none ∧ (b.GetInfra r s).err = none
      ∧ content (b.GetInfra r s).state = content s ∧ (b.GetInfra r s).record = r
  getInfra_present : ∀ s r x, (content s).infras r.Lookup = some x →
    (∃ y, (b.GetInfra r s).val = some y ∧ Infra.DeepEqual y x = true)
      ∧ (b.GetInfra r s).err = none ∧ content (b.GetInfra r s).state = content s
      ∧ (b.GetInfra r s).record = r
  putInfra_create : ∀ s r, (content s).infras r.Lookup = none →
    (b.PutInfra r s).record.ID ≠ "" ∧ (b.PutInfra r s).record.Lookup = r.Lookup
      ∧ (b.PutInfra r s).record.Outputs = r.Outputs ∧ (b.PutInfra r s).err = none
      ∧ content (b.PutInfra r s).state
          = (content s).setInfra r.Lookup (some (b.PutInfra r s).record)
  getDeploy_absent : ∀ s r, (content s).deploys r.Lookup = none →
    (b.GetDeploy r s).val = none ∧ (b.GetDeploy r s).err = none
      ∧ content (b.GetDeploy r s).state = content s ∧ (b.GetDeploy r s).record = r
  getDeploy_present : ∀ s r x, (content s).deploys r.Lookup = some x →
    (∃ y, (b.GetDeploy r s).val = some y ∧ Deploy.DeepEqual y x = true)
      ∧ (b.GetDeploy r s).err = none ∧ content (b.GetDeploy r s).state = content s
      ∧ (b.GetDeploy r s).record = r
  putDeploy_create : ∀ s r, (content s).deploys r.Lookup = none →
    (b.PutDeploy r s).record.ID ≠ "" ∧ (b.PutDeploy r s).record.Lookup = r.Lookup
      ∧ (b.PutDeploy r s).err = none
      ∧ content (b.PutDeploy r s).state
          = (content s).setDeploy r.Lookup (some (b.PutDeploy r s).record)
  getDev_absent : ∀ s r, (content s).devs r.Lookup = none →
    (b.GetDev r s).val = none ∧ (b.GetDev r s).err = none
      ∧ content (b.GetDev r s).state = content s ∧ (b.GetDev r s).record = r
  getDev_present : ∀ s r x, (content s).devs r.Lookup = some x →
    (∃ y, (b.GetDev r s).val = some y ∧ Dev.DeepEqual y x = true)
      ∧ (b.GetDev r s).err = none ∧ content (b.GetDev r s).state = content s
      ∧ (b.GetDev r s).record = r
  putDev_create : ∀ s r, (content s).devs r.Lookup = none →
    (b.PutDev r s).record.ID ≠ "" ∧ (b.PutDev r s).record.Lookup = r.Lookup
      ∧ (b.PutDev r s).err = none
      ∧ content (b.PutDev r s).state
          = (content s).setDev r.Lookup (some (b.PutDev r s).record)
  deleteDev : ∀ s r,
    (b.DeleteDev r s).err = none ∧ (b.DeleteDev r s).record = r
      ∧ content (b.DeleteDev r s).state = (content s).setDev r.Lookup none

/-! ## Properties of backends -/

/-- A backend that writes nothing to the caller's records but the ID that Put
assigns: Get and DeleteDev leave the record behind the pointer as it is, and
Put leaves its Lookup and its Outputs as they are. -/
structure KeepsRecords {σ : Type} (b : Backend σ) : Prop where
  getInfra : ∀ r s, (b.GetInfra r s).record = r
  putInfra : ∀ r s, (b.PutInfra r s).record.Lookup = r.Lookup
    ∧ (b.PutInfra r s).record.Outputs = r.Outputs
  getDeploy : ∀ r s, (b.GetDeploy r s).record = r
  putDeploy : ∀ r s, (b.PutDeploy r s).record.Lookup = r.Lookup
  getDev : ∀ r s, (b.GetDev r s).record = r
  putDev : ∀ r s, (b.PutDev r s).record.Lookup = r.Lookup
  deleteDev : ∀ r s, (b.DeleteDev r s).record = r

/-- A backend that reports not-found as an error: one of its four Get methods
returns an error whenever it returns a nil result. -/
def ReportsNotFoundAsError {σ : Type} (b : Backend σ) : Prop :=
  (∀ k s, (b.GetBlob k s).val = none → (b.GetBlob k s).err ≠ none)
    ∨ (∀ r s, (b.GetInfra r s).val = none → (b.GetInfra r s).err ≠ none)
    ∨ (∀ r s, (b.GetDeploy r s).val = none → (b.GetDeploy r s).err ≠ none)
    ∨ (∀ r s, (b.GetDev r s).val = none → (b.GetDev r s).err ≠ none)

/-- A backend whose stored bytes differ from the bytes put: in every state,
the handle that GetBlob("foo") returns right after PutBlob("foo", "bar") does
not deliver the bytes "bar", whatever way its stream ends. -/
def StoresOtherBytes {σ : Type} (b : Backend σ) : Prop :=
  ∀ s d e, (b.GetBlob "foo" (b.PutBlob "foo" barData s).state).val = some d →
    d.Data ≠ some (Reader.stream bar e)

/-- A backend whose DeleteDev returns an error for a non-existent record:
whenever GetDev has just reported a record missing (nil result, nil error),
DeleteDev of that record returns an error. -/
def DeleteFailsOnMissing {σ : Type} (b : Backend σ) : Prop :=
  ∀ r s, (b.GetDev r s).val = none → (b.GetDev r s).err = none →
    (b.DeleteDev (b.GetDev r s).record (b.GetDev r s).state).err ≠ none

/-- A backend that addresses Infra records by the Infra name alone, index s
being the record its state s holds under each name: GetInfra returns, with no
error, the record held under the Infra name of the caller's record, whatever
the Foundation, and holds the same records afterwards; and the Infra name of
the caller's record is the caller's, GetInfra and PutInfra do not write to
it. -/
def AddressesInfraByName {σ : Type} (b : Backend σ) (index : σ → String → Option Infra) :
    Prop :=
  (∀ r s, (b.GetInfra r s).val = index s r.Lookup.Infra ∧ (b.GetInfra r s).err = none
    ∧ index (b.GetInfra r s).state = index s
    ∧ (b.GetInfra r s).record.Lookup.Infra = r.Lookup.Infra)
  ∧ ∀ r s, (b.PutInfra r s).record.Lookup.Infra = r.Lookup.Infra

/-! ## Concrete backends -/

/-- The state of the in-memory backends: the directory content and the number
of IDs minted so far. -/
structure Mem where
  store : Store
  minted : Nat

/-- The in-memory state that stores nothing. -/
def Mem.empty : Mem := ⟨Store.empty, 0⟩

/-- The ID minted after n others: n + 1 characters, so never empty and
different for different n. -/
def newID (n : Nat) : String := String.mk ('#' :: List.replicate n '#')

/-- An in-memory backend: records are kept under their full Lookup; Put of a
stored Lookup keeps the ID of the stored record, Put of an unstored one mints
the next ID; the ID is all that is written to the caller's record. -/
def memBackend : Backend Mem where
  GetBlob k s := ⟨(s.store.blobs k).map fun bs => ⟨some (NewReader bs)⟩, none, s⟩
  PutBlob k d s :=
    match d.Data with
    | some (Reader.stream bs none) => ⟨(), none, ⟨s.store.setBlob k (some bs), s.minted⟩⟩
    | _ => ⟨(), some "unreadable source", s⟩
  GetInfra r s := ⟨r, s.store.infras r.Lookup, none, s⟩
  PutInfra r s :=
    match s.store.infras r.Lookup with
    | some x => ⟨{ r with ID := x.ID }, (), none,
        ⟨s.store.setInfra r.Lookup (some { r with ID := x.ID }), s.minted⟩⟩
    | none => ⟨{ r with ID := newID s.minted }, (), none,
        ⟨s.store.setInfra r.Lookup (some { r with ID := newID s.minted }), s.minted + 1⟩⟩
  GetDeploy r s := ⟨r, s.store.deploys r.Lookup, none, s⟩
  PutDeploy r s :=
    match s.store.deploys r.Lookup with
    | some x => ⟨{ r with ID := x.ID }, (), none,
        ⟨s.store.setDeploy r.Lookup (some { r with ID := x.ID }), s.minted⟩⟩
    | none => ⟨{ r with ID := newID s.minted }, (), none,
        ⟨s.store.setDeploy r.Lookup (some { r with ID := newID s.minted }), s.minted + 1⟩⟩
  GetDev r s := ⟨r, s.store.devs r.Lookup, none, s⟩
  PutDev r s :=
    match s.store.devs r.Lookup with
    | some x => ⟨{ r with ID := x.ID }, (), none,
        ⟨s.store.setDev r.Lookup (some { r with ID := x.ID }), s.minted⟩⟩
    | none => ⟨{ r with ID := newID s.minted }, (), none,
        ⟨s.store.setDev r.Lookup (some { r with ID := newID s.minted }), s.minted + 1⟩⟩
  DeleteDev r s := ⟨r, (), none, ⟨s.store.setDev r.Lookup none, s.minted⟩⟩

/-- The in-memory backend, except that GetBlob of a name with no blob returns
an error. -/
def notFoundErrorBackend : Backend Mem :=
  { memBackend with
    GetBlob := fun k s =>
      match s.store.blobs k with
      | none => ⟨none, some "blob not found", s⟩
      | some bs => ⟨some ⟨some (NewReader bs)⟩, none, s⟩ }

/-- The in-memory backend, except that PutBlob stores one zero byte more than
it was given. -/
def paddingBackend : Backend Mem :=
  { memBackend with
    PutBlob := fun k d s =>
      match d.Data with
      | some (Reader.stream bs none) =>
        ⟨(), none, ⟨s.store.setBlob k (some (bs ++ [0])), s.minted⟩⟩
      | _ => ⟨(), some "unreadable source", s⟩ }

/-- The in-memory backend, except that DeleteDev of a Lookup with no record
returns an error. -/
def strictDeleteBackend : Backend Mem :=
  { memBackend with
    DeleteDev := fun r s =>
      match s.store.devs r.Lookup with
      | none => ⟨r, (), some "dev not found", s⟩
      | some _ => ⟨r, (), none, ⟨s.store.setDev r.Lookup none, s.minted⟩⟩ }

/-- The Lookup that keeps only the Infra name of a Lookup. -/
def nameKey (l : Lookup) : Lookup := { Infra := l.Infra }

/-- The in-memory backend, except that Infra records are kept under their
Infra name alone. -/
def byNameBackend : Backend Mem :=
  { memBackend with
    GetInfra := fun r s => ⟨r, s.store.infras (nameKey r.Lookup), none, s⟩
    PutInfra := fun r s =>
      match s.store.infras (nameKey r.Lookup) with
      | some x => ⟨{ r with ID := x.ID }, (), none,
          ⟨s.store.setInfra (nameKey r.Lookup) (some { r with ID := x.ID }), s.minted⟩⟩
      | none => ⟨{ r with ID := newID s.minted }, (), none,
          ⟨s.store.setInfra (nameKey r.Lookup) (some { r with ID := newID s.minted }),
            s.minted + 1⟩⟩ }

/-- The backend byNameBackend, except that GetInfra returns the record kept
under the Infra name only when its whole Lookup is the one asked for: there is
one slot per Infra name, and reads compare the Foundation. -/
def clobberBackend : Backend Mem :=
  { byNameBackend with
    GetInfra := fun r s =>
      match s.store.infras (nameKey r.Lookup) with
      | some x => ⟨r, if x.Lookup = r.Lookup then some x else none, none, s⟩
      | none => ⟨r, none, none, s⟩ }

/-- The in-memory backend, except that every PutDev mints a new ID, also for a
Lookup that is stored already. -/
def mintingBackend : Backend Mem :=
  { memBackend with
    PutDev := fun r s => ⟨{ r with ID := newID s.minted }, (), none,
      ⟨s.store.setDev r.Lookup (some { r with ID := newID s.minted }), s.minted + 1⟩⟩ }

/-- The in-memory backend, except that GetBlob returns a handle together with
an error. -/
def handleWithErrorBackend : Backend Mem :=
  { memBackend with GetBlob := fun _ s => ⟨some barData, some "short read", s⟩ }

/-- The in-memory backend, except that the handle GetBlob returns for a stored
blob has a reader whose Read panics. -/
def panickingReadBackend : Backend Mem :=
  { memBackend with
    GetBlob := fun k s => ⟨(s.store.blobs k).map fun _ => ⟨some Reader.panics⟩, none, s⟩ }

/-- The in-memory backend, except that PutInfra first writes the Outputs map
with "foo": "CHANGED" to the caller's record, and stores the record so
changed. -/
def rewritingBackend : Backend Mem :=
  { memBackend with
    PutInfra := fun r s => memBackend.PutInfra { r with Outputs := some [("foo", "CHANGED")] } s }

/-! ## Sequencing -/

theorem andThen_of_pass {σ : Type} (r : Run σ) (k : σ → Run σ) (h : r.outcome = Outcome.pass) :
    r.andThen k = ⟨(k r.state).outcome, (k r.state).state, r.log ++ (k r.state).log⟩ := by
  unfold Run.andThen
  rw [h]

theorem andThen_of_not_pass {σ : Type} (r : Run σ) (k : σ → Run σ)
    (h : r.outcome ≠ Outcome.pass) : r.andThen k = r := by
  unfold Run.andThen
  split
  · rename_i hp
    exact absurd hp h
  · rfl

theorem andThen_pass_iff {σ : Type} (r : Run σ) (k : σ → Run σ) :
    (r.andThen k).outcome = Outcome.pass ↔
      r.outcome = Outcome.pass ∧ (k r.state).outcome = Outcome.pass := by
  by_cases h : r.outcome = Outcome.pass
  · rw [andThen_of_pass r k h]
    simp [h]
  · rw [andThen_of_not_pass r k h]
    simp [h]

theorem andThen_pass {σ : Type} (r : Run σ) (k : σ → Run σ)
    (h : (r.andThen k).outcome = Outcome.pass) :
    r.outcome = Outcome.pass ∧ (k r.state).outcome = Outcome.pass
      ∧ (r.andThen k).state = (k r.state).state
      ∧ (r.andThen k).log = r.log ++ (k r.state).log := by
  obtain ⟨h1, h2⟩ := (andThen_pass_iff r k).1 h
  rw [andThen_of_pass r k h1]
  exact ⟨h1, h2, rfl, rfl⟩

theorem ptrDeepEqual_some {α : Type} (eq : α → α → Bool) (v : Option α) (a : α)
    (h : ¬ ptrDeepEqual eq v (some a) = false) : ∃ x, v = some x ∧ eq x a = true := by
  cases v with
  | none => simp [ptrDeepEqual] at h
  | some x => exact ⟨x, rfl, by simpa [ptrDeepEqual] using h⟩

/-! ## What a section that ran to its end has called and logged -/

theorem blob_pass {σ : Type} (b : Backend σ) (s : σ) :
    (TestBackend_Blob b s).outcome = Outcome.pass →
    ∃ d : BlobData, d.Data = some (NewReader bar)
      ∧ (b.GetBlob "foo" s).val = none ∧ (b.GetBlob "foo" s).err = none
      ∧ (b.PutBlob "foo" barData (b.GetBlob "foo" s).state).err = none
      ∧ (b.GetBlob "foo" (b.PutBlob "foo" barData (b.GetBlob "foo" s).state).state).val
          = some d
      ∧ (b.GetBlob "foo" (b.PutBlob "foo" barData (b.GetBlob "foo" s).state).state).err
          = none
      ∧ (TestBackend_Blob b s).log =
        [Event.GetBlob "foo" none none, Event.PutBlob "foo" barData none,
         Event.GetBlob "foo" (some d) none, Event.Close d] := by
  simp only [TestBackend_Blob]
  split
  · simp
  split
  · simp
  split
  · simp
  split
  · simp
  split
  · simp
  split
  · simp
  · simp
  split
  · simp
  split
  · simp
  rename_i h1 _ h2 h3 h4 _ d h5 _ bytes err h6 h7 h8
  intro _
  simp only [ne_eq, not_not, List.nil_append] at h1 h3 h4 h7 h8
  refine ⟨d, ?_, h2, h1, h3, h5, h4, ?_⟩
  · rw [h6, h7, h8]
    rfl
  · simp [h1, h2, h3, h4, h5]

theorem infra_pass {σ : Type} (b : Backend σ) (s : σ) :
    (TestBackend_Infra b s).outcome = Outcome.pass →
    ∃ (a1 a2 a3 x : Infra) (t1 t2 t3 : σ),
      b.GetInfra ⟨{ Infra := "foo" }, "", none⟩ s = ⟨a1, none, none, t1⟩
      ∧ a1.ID = ""
      ∧ b.PutInfra ⟨a1.Lookup, a1.ID, fooBar⟩ t1 = ⟨a2, (), none, t2⟩
      ∧ a2.ID ≠ ""
      ∧ b.GetInfra a2 t2 = ⟨a3, some x, none, t3⟩
      ∧ Infra.DeepEqual x a3 = true
      ∧ (TestBackend_Infra b s).state = t3
      ∧ (TestBackend_Infra b s).log =
        [Event.GetInfra ⟨{ Infra := "foo" }, "", none⟩ a1 none none,
         Event.PutInfra ⟨a1.Lookup, a1.ID, fooBar⟩ a2 none,
         Event.GetInfra a2 a3 (some x) none] := by
  unfold TestBackend_Infra
  dsimp only
  generalize hr1 : b.GetInfra ⟨{ Infra := "foo" }, "", none⟩ s = r1
  obtain ⟨a1, v1, e1, t1⟩ := r1
  dsimp only
  by_cases h1 : e1 ≠ none
  · rw [if_pos h1]
    intro hp
    cases hp
  rw [if_neg h1]
  by_cases h2 : v1 ≠ none
  · rw [if_pos h2]
    intro hp
    cases hp
  rw [if_neg h2]
  by_cases h0 : a1.ID ≠ ""
  · rw [if_pos h0]
    intro hp
    cases hp
  rw [if_neg h0]
  simp only [ne_eq, not_not] at h1 h2 h0
  subst h1 h2
  generalize hr2 : b.PutInfra ⟨a1.Lookup, a1.ID, fooBar⟩ t1 = r2
  obtain ⟨a2, v2, e2, t2⟩ := r2
  dsimp only
  by_cases h3 : e2 ≠ none
  · rw [if_pos h3]
    intro hp
    cases hp
  rw [if_neg h3]
  by_cases h4 : a2.ID = ""
  · rw [if_pos h4]
    intro hp
    cases hp
  rw [if_neg h4]
  simp only [ne_eq, not_not] at h3
  subst h3
  generalize hr3 : b.GetInfra a2 t2 = r3
  obtain ⟨a3, v3, e3, t3⟩ := r3
  dsimp only
  by_cases h5 : e3 ≠ none
  · rw [if_pos h5]
    intro hp
    cases hp
  rw [if_neg h5]
  by_cases h6 : ptrDeepEqual Infra.DeepEqual v3 (some a3) = false
  · rw [if_pos h6]
    intro hp
    cases hp
  rw [if_neg h6]
  simp only [ne_eq, not_not] at h5
  subst h5
  obtain ⟨x, hx, hxe⟩ := ptrDeepEqual_some _ _ _ h6
  subst hx
  intro _
  refine ⟨a1, a2, a3, x, t1, t2, t3, ?_⟩
  rw [hr2, hr3]
  exact ⟨rfl, h0, rfl, h4, rfl, hxe, rfl, rfl⟩

theorem infraFoundation_pass {σ : Type} (b : Backend σ) (s : σ) :
    (TestBackend_InfraFoundation b s).outcome = Outcome.pass →
    ∃ (a1 a2 a3 x : Infra) (t1 t2 t3 : σ),
      b.GetInfra ⟨{ Infra := "foo", Foundation := "bar" }, "", none⟩ s = ⟨a1, none, none, t1⟩
      ∧ a1.ID = ""
      ∧ b.PutInfra ⟨a1.Lookup, a1.ID, fooBar⟩ t1 = ⟨a2, (), none, t2⟩
      ∧ a2.ID ≠ ""
      ∧ b.GetInfra a2 t2 = ⟨a3, some x, none, t3⟩
      ∧ Infra.DeepEqual x a3 = true
      ∧ (TestBackend_InfraFoundation b s).state = t3
      ∧ (TestBackend_InfraFoundation b s).log =
        [Event.GetInfra ⟨{ Infra := "foo", Foundation := "bar" }, "", none⟩ a1 none none,
         Event.PutInfra ⟨a1.Lookup, a1.ID, fooBar⟩ a2 none,
         Event.GetInfra a2 a3 (some x) none] := by
  unfold TestBackend_InfraFoundation
  dsimp only
  generalize hr1 : b.GetInfra ⟨{ Infra := "foo", Foundation := "bar" }, "", none⟩ s = r1
  obtain ⟨a1, v1, e1, t1⟩ := r1
  dsimp only
  by_cases h1 : e1 ≠ none
  · rw [if_pos h1]
    intro hp
    cases hp
  rw [if_neg h1]
  by_cases h2 : v1 ≠ none
  · rw [if_pos h2]
    intro hp
    cases hp
  rw [if_neg h2]
  by_cases h0 : a1.ID ≠ ""
  · rw [if_pos h0]
    intro hp
    cases hp
  rw [if_neg h0]
  simp only [ne_eq, not_not] at h1 h2 h0
  subst h1 h2
  generalize hr2 : b.PutInfra ⟨a1.Lookup, a1.ID, fooBar⟩ t1 = r2
  obtain ⟨a2, v2, e2, t2⟩ := r2
  dsimp only
  by_cases h3 : e2 ≠ none
  · rw [if_pos h3]
    intro hp
    cases hp
  rw [if_neg h3]
  by_cases h4 : a2.ID = ""
  · rw [if_pos h4]
    intro hp
    cases hp
  rw [if_neg h4]
  simp only [ne_eq, not_not] at h3
  subst h3
  generalize hr3 : b.GetInfra a2 t2 = r3
  obtain ⟨a3, v3, e3, t3⟩ := r3
  dsimp only
  by_cases h5 : e3 ≠ none
  · rw [if_pos h5]
    intro hp
    cases hp
  rw [if_neg h5]
  by_cases h6 : ptrDeepEqual Infra.DeepEqual v3 (some a3) = false
  · rw [if_pos h6]
    intro hp
    cases hp
  rw [if_neg h6]
  simp only [ne_eq, not_not] at h5
  subst h5
  obtain ⟨x, hx, hxe⟩ := ptrDeepEqual_some _ _ _ h6
  subst hx
  intro _
  refine ⟨a1, a2, a3, x, t1, t2, t3, ?_⟩
  rw [hr2, hr3]
  exact ⟨rfl, h0, rfl, h4, rfl, hxe, rfl, rfl⟩

theorem deploy_pass {σ : Type} (b : Backend σ) (s : σ) :
    (TestBackend_Deploy b s).outcome = Outcome.pass →
    ∃ (a1 a2 a3 x : Deploy) (t1 t2 t3 : σ),
      b.GetDeploy ⟨{ AppID := "foo", Infra := "bar", InfraFlavor := "baz" }, ""⟩ s = ⟨a1, none, none, t1⟩
      ∧ a1.ID = ""
      ∧ b.PutDeploy a1 t1 = ⟨a2, (), none, t2⟩
      ∧ a2.ID ≠ ""
      ∧ b.GetDeploy a2 t2 = ⟨a3, some x, none, t3⟩
      ∧ Deploy.DeepEqual x a3 = true
      ∧ (TestBackend_Deploy b s).state = t3
      ∧ (TestBackend_Deploy b s).log =
        [Event.GetDeploy ⟨{ AppID := "foo", Infra := "bar", InfraFlavor := "baz" }, ""⟩ a1 none none,
         Event.PutDeploy a1 a2 none,
         Event.GetDeploy a2 a3 (some x) none] := by
  unfold TestBackend_Deploy
  dsimp only
  generalize hr1 : b.GetDeploy ⟨{ AppID := "foo", Infra := "bar", InfraFlavor := "baz" }, ""⟩ s = r1
  obtain ⟨a1, v1, e1, t1⟩ := r1
  dsimp only
  by_cases h1 : e1 ≠ none
  · rw [if_pos h1]
    intro hp
    cases hp
  rw [if_neg h1]
  by_cases h2 : v1 ≠ none
  · rw [if_pos h2]
    intro hp
    cases hp
  rw [if_neg h2]
  by_cases h0 : a1.ID ≠ ""
  · rw [if_pos h0]
    intro hp
    cases hp
  rw [if_neg h0]
  simp only [ne_eq, not_not] at h1 h2 h0
  subst h1 h2
  generalize hr2 : b.PutDeploy a1 t1 = r2
  obtain ⟨a2, v2, e2, t2⟩ := r2
  dsimp only
  by_cases h3 : e2 ≠ none
  · rw [if_pos h3]
    intro hp
    cases hp
  rw [if_neg h3]
  by_cases h4 : a2.ID = ""
  · rw [if_pos h4]
    intro hp
    cases hp
  rw [if_neg h4]
  simp only [ne_eq, not_not] at h3
  subst h3
  generalize hr3 : b.GetDeploy a2 t2 = r3
  obtain ⟨a3, v3, e3, t3⟩ := r3
  dsimp only
  by_cases h5 : e3 ≠ none
  · rw [if_pos h5]
    intro hp
    cases hp
  rw [if_neg h5]
  by_cases h6 : ptrDeepEqual Deploy.DeepEqual v3 (some a3) = false
  · rw [if_pos h6]
    intro hp
    cases hp
  rw [if_neg h6]
  simp only [ne_eq, not_not] at h5
  subst h5
  obtain ⟨x, hx, hxe⟩ := ptrDeepEqual_some _ _ _ h6
  subst hx
  intro _
  refine ⟨a1, a2, a3, x, t1, t2, t3, ?_⟩
  rw [hr2, hr3]
  exact ⟨rfl, h0, rfl, h4, rfl, hxe, rfl, rfl⟩

theorem devDelete_pass {σ : Type} (b : Backend σ) (dev : Dev) (s : σ) :
    (TestBackend_DevDelete b dev s).outcome = Outcome.pass →
    ∃ (a4 a5 a6 : Dev) (t4 t5 t6 : σ),
      b.DeleteDev dev s = ⟨a4, (), none, t4⟩
      ∧ b.GetDev a4 t4 = ⟨a5, none, none, t5⟩
      ∧ b.DeleteDev a5 t5 = ⟨a6, (), none, t6⟩
      ∧ (TestBackend_DevDelete b dev s).state = t6
      ∧ (TestBackend_DevDelete b dev s).log =
        [Event.DeleteDev dev a4 none, Event.GetDev a4 a5 none none,
         Event.DeleteDev a5 a6 none] := by
  unfold TestBackend_DevDelete
  dsimp only
  generalize hr4 : b.DeleteDev dev s = r4
  obtain ⟨a4, v4, e4, t4⟩ := r4
  dsimp only
  by_cases h1 : e4 ≠ none
  · rw [if_pos h1]
    intro hp
    cases hp
  rw [if_neg h1]
  simp only [ne_eq, not_not] at h1
  subst h1
  generalize hr5 : b.GetDev a4 t4 = r5
  obtain ⟨a5, v5, e5, t5⟩ := r5
  dsimp only
  by_cases h2 : e5 ≠ none
  · rw [if_pos h2]
    intro hp
    cases hp
  rw [if_neg h2]
  by_cases h3 : v5 ≠ none
  · rw [if_pos h3]
    intro hp
    cases hp
  rw [if_neg h3]
  simp only [ne_eq, not_not] at h2 h3
  subst h2 h3
  generalize hr6 : b.DeleteDev a5 t5 = r6
  obtain ⟨a6, v6, e6, t6⟩ := r6
  dsimp only
  by_cases h4 : e6 ≠ none
  · rw [if_pos h4]
    intro hp
    cases hp
  rw [if_neg h4]
  simp only [ne_eq, not_not] at h4
  subst h4
  intro _
  refine ⟨a4, a5, a6, t4, t5, t6, ?_⟩
  rw [hr5, hr6]
  exact ⟨rfl, rfl, rfl, rfl, rfl⟩

theorem dev_pass {σ : Type} (b : Backend σ) (s : σ) :
    (TestBackend_Dev b s).outcome = Outcome.pass →
    ∃ (a1 a2 a3 x : Dev) (t1 t2 t3 : σ),
      b.GetDev ⟨{ AppID := "foo" }, ""⟩ s = ⟨a1, none, none, t1⟩
      ∧ a1.ID = ""
      ∧ b.PutDev a1 t1 = ⟨a2, (), none, t2⟩
      ∧ a2.ID ≠ ""
      ∧ b.GetDev a2 t2 = ⟨a3, some x, none, t3⟩
      ∧ Dev.DeepEqual x a3 = true
      ∧ (TestBackend_DevDelete b a3 t3).outcome = Outcome.pass
      ∧ (TestBackend_Dev b s).state = (TestBackend_DevDelete b a3 t3).state
      ∧ (TestBackend_Dev b s).log =
        [Event.GetDev ⟨{ AppID := "foo" }, ""⟩ a1 none none,
         Event.PutDev a1 a2 none,
         Event.GetDev a2 a3 (some x) none] ++ (TestBackend_DevDelete b a3 t3).log := by
  unfold TestBackend_Dev
  dsimp only
  generalize hr1 : b.GetDev ⟨{ AppID := "foo" }, ""⟩ s = r1
  obtain ⟨a1, v1, e1, t1⟩ := r1
  dsimp only
  by_cases h1 : e1 ≠ none
  · rw [if_pos h1]
    intro hp
    cases hp
  rw [if_neg h1]
  by_cases h2 : v1 ≠ none
  · rw [if_pos h2]
    intro hp
    cases hp
  rw [if_neg h2]
  by_cases h0 : a1.ID ≠ ""
  · rw [if_pos h0]
    intro hp
    cases hp
  rw [if_neg h0]
  simp only [ne_eq, not_not] at h1 h2 h0
  subst h1 h2
  generalize hr2 : b.PutDev a1 t1 = r2
  obtain ⟨a2, v2, e2, t2⟩ := r2
  dsimp only
  by_cases h3 : e2 ≠ none
  · rw [if_pos h3]
    intro hp
    cases hp
  rw [if_neg h3]
  by_cases h4 : a2.ID = ""
  · rw [if_pos h4]
    intro hp
    cases hp
  rw [if_neg h4]
  simp only [ne_eq, not_not] at h3
  subst h3
  generalize hr3 : b.GetDev a2 t2 = r3
  obtain ⟨a3, v3, e3, t3⟩ := r3
  dsimp only
  by_cases h5 : e3 ≠ none
  · rw [if_pos h5]
    intro hp
    cases hp
  rw [if_neg h5]
  by_cases h6 : ptrDeepEqual Dev.DeepEqual v3 (some a3) = false
  · rw [if_pos h6]
    intro hp
    cases hp
  rw [if_neg h6]
  simp only [ne_eq, not_not] at h5
  subst h5
  obtain ⟨x, hx, hxe⟩ := ptrDeepEqual_some _ _ _ h6
  subst hx
  rw [andThen_of_pass _ _ rfl]
  intro hp
  refine ⟨a1, a2, a3, x, t1, t2, t3, ?_⟩
  rw [hr2, hr3]
  exact ⟨rfl, h0, rfl, h4, rfl, hxe, hp, rfl, rfl⟩

/-! ## The whole run, section by section -/

theorem TestBackend_pass_sections {σ : Type} (b : Backend σ) (s : σ)
    (h : (TestBackend b s).outcome = Outcome.pass) :
    (TestBackend_Blob b s).outcome = Outcome.pass
    ∧ (TestBackend_Infra b (TestBackend_Blob b s).state).outcome = Outcome.pass
    ∧ (TestBackend_InfraFoundation b
      (TestBackend_Infra b (TestBackend_Blob b s).state).state).outcome = Outcome.pass
    ∧ (TestBackend_Deploy b (TestBackend_InfraFoundation b
      (TestBackend_Infra b (TestBackend_Blob b s).state).state).state).outcome = Outcome.pass
    ∧ (TestBackend_Dev b (TestBackend_Deploy b (TestBackend_InfraFoundation b
        (TestBackend_Infra b (TestBackend_Blob b s).state).state).state).state).outcome
          = Outcome.pass
    ∧ (TestBackend b s).log
        = (TestBackend_Blob b s).log
          ++ (TestBackend_Infra b (TestBackend_Blob b s).state).log
          ++ (TestBackend_InfraFoundation b
              (TestBackend_Infra b (TestBackend_Blob b s).state).state).log
          ++ (TestBackend_Deploy b (TestBackend_InfraFoundation b
              (TestBackend_Infra b (TestBackend_Blob b s).state).state).state).log
          ++ (TestBackend_Dev b (TestBackend_Deploy b (TestBackend_InfraFoundation b
              (TestBackend_Infra b (TestBackend_Blob b s).state).state).state).state).log := by
  unfold TestBackend at h ⊢
  obtain ⟨h4, hdev, -, lg5⟩ := andThen_pass _ _ h
  obtain ⟨h3, hdep, st4, lg4⟩ := andThen_pass _ _ h4
  obtain ⟨h2, hfou, st3, lg3⟩ := andThen_pass _ _ h3
  obtain ⟨h1, hinf, st2, lg2⟩ := andThen_pass _ _ h2
  rw [st2] at hfou st3 lg3
  rw [st3] at hdep st4 lg4
  rw [st4] at hdev lg5
  refine ⟨h1, hinf, hfou, hdep, hdev, ?_⟩
  rw [lg5, lg4, lg3, lg2]

theorem TestBackend_of_sections {σ : Type} (b : Backend σ) (s : σ)
    (h1 : (TestBackend_Blob b s).outcome = Outcome.pass)
    (h2 : (TestBackend_Infra b (TestBackend_Blob b s).state).outcome = Outcome.pass)
    (h3 : (TestBackend_InfraFoundation b
      (TestBackend_Infra b (TestBackend_Blob b s).state).state).outcome = Outcome.pass)
    (h4 : (TestBackend_Deploy b (TestBackend_InfraFoundation b
      (TestBackend_Infra b (TestBackend_Blob b s).state).state).state).outcome = Outcome.pass) :
    (TestBackend b s).outcome
        = (TestBackend_Dev b (TestBackend_Deploy b (TestBackend_InfraFoundation b
            (TestBackend_Infra b (TestBackend_Blob b s).state).state).state).state).outcome
      ∧ (TestBackend b s).state
        = (TestBackend_Dev b (TestBackend_Deploy b (TestBackend_InfraFoundation b
            (TestBackend_Infra b (TestBackend_Blob b s).state).state).state).state).state := by
  simp only [TestBackend, Run.andThen, h1, h2, h3, h4]
  exact ⟨trivial, trivial⟩

theorem TestBackend_of_blob_not_pass {σ : Type} (b : Backend σ) (s : σ)
    (h : (TestBackend_Blob b s).outcome ≠ Outcome.pass) :
    TestBackend b s = TestBackend_Blob b s := by
  unfold TestBackend
  rw [andThen_of_not_pass _ _ h, andThen_of_not_pass _ _ h, andThen_of_not_pass _ _ h,
    andThen_of_not_pass _ _ h]

theorem TestBackend_of_infra_not_pass {σ : Type} (b : Backend σ) (s : σ)
    (h1 : (TestBackend_Blob b s).outcome = Outcome.pass)
    (h2 : (TestBackend_Infra b (TestBackend_Blob b s).state).outcome ≠ Outcome.pass) :
    (TestBackend b s).outcome = (TestBackend_Infra b (TestBackend_Blob b s).state).outcome := by
  have a : ((TestBackend_Blob b s).andThen (TestBackend_Infra b)).outcome
      = (TestBackend_Infra b (TestBackend_Blob b s).state).outcome := by
    rw [andThen_of_pass _ _ h1]
  have n : ((TestBackend_Blob b s).andThen (TestBackend_Infra b)).outcome ≠ Outcome.pass := by
    rw [a]
    exact h2
  unfold TestBackend
  rw [andThen_of_not_pass _ _ n, andThen_of_not_pass _ _ n, andThen_of_not_pass _ _ n, a]

theorem TestBackend_of_foundation_not_pass {σ : Type} (b : Backend σ) (s : σ)
    (h1 : (TestBackend_Blob b s).outcome = Outcome.pass)
    (h2 : (TestBackend_Infra b (TestBackend_Blob b s).state).outcome = Outcome.pass)
    (h3 : (TestBackend_InfraFoundation b
      (TestBackend_Infra b (TestBackend_Blob b s).state).state).outcome ≠ Outcome.pass) :
    (TestBackend b s).outcome = (TestBackend_InfraFoundation b
      (TestBackend_Infra b (TestBackend_Blob b s).state).state).outcome := by
  have a1 : ((TestBackend_Blob b s).andThen (TestBackend_Infra b)).outcome = Outcome.pass := by
    rw [andThen_of_pass _ _ h1]
    exact h2
  have s1 : ((TestBackend_Blob b s).andThen (TestBackend_Infra b)).state
      = (TestBackend_Infra b (TestBackend_Blob b s).state).state := by
    rw [andThen_of_pass _ _ h1]
  have a : (((TestBackend_Blob b s).andThen (TestBackend_Infra b)).andThen
      (TestBackend_InfraFoundation b)).outcome
      = (TestBackend_InfraFoundation b
          (TestBackend_Infra b (TestBackend_Blob b s).state).state).outcome := by
    rw [andThen_of_pass _ _ a1, s1]
  have n : (((TestBackend_Blob b s).andThen (TestBackend_Infra b)).andThen
      (TestBackend_InfraFoundation b)).outcome ≠ Outcome.pass := by
    rw [a]
    exact h3
  unfold TestBackend
  rw [andThen_of_not_pass _ _ n, andThen_of_not_pass _ _ n, a]

/-- The log of a run of TestBackend that ran to its end: nineteen calls. The
record a call is made with is the record the call before it on the same object
left; the four records of lines 56, 87, 122 and 157 enter as the literals. -/
theorem TestBackend_pass_log {σ : Type} (b : Backend σ) (s : σ)
    (h : (TestBackend b s).outcome = Outcome.pass) :
    ∃ (d : BlobData) (a1 a2 a3 x1 f1 f2 f3 x2 : Infra) (p1 p2 p3 x3 : Deploy)
      (v1 v2 v3 x4 v4 v5 v6 : Dev),
      d.Data = some (NewReader bar)
      ∧ a1.ID = "" ∧ a2.ID ≠ "" ∧ Infra.DeepEqual x1 a3 = true
      ∧ f1.ID = "" ∧ f2.ID ≠ "" ∧ Infra.DeepEqual x2 f3 = true
      ∧ p1.ID = "" ∧ p2.ID ≠ "" ∧ Deploy.DeepEqual x3 p3 = true
      ∧ v1.ID = "" ∧ v2.ID ≠ "" ∧ Dev.DeepEqual x4 v3 = true
      ∧ (TestBackend b s).log =
        [Event.GetBlob "foo" none none,
         Event.PutBlob "foo" barData none,
         Event.GetBlob "foo" (some d) none,
         Event.Close d,
         Event.GetInfra ⟨{ Infra := "foo" }, "", none⟩ a1 none none,
         Event.PutInfra ⟨a1.Lookup, a1.ID, fooBar⟩ a2 none,
         Event.GetInfra a2 a3 (some x1) none,
         Event.GetInfra ⟨{ Infra := "foo", Foundation := "bar" }, "", none⟩ f1 none none,
         Event.PutInfra ⟨f1.Lookup, f1.ID, fooBar⟩ f2 none,
         Event.GetInfra f2 f3 (some x2) none,
         Event.GetDeploy ⟨{ AppID := "foo", Infra := "bar", InfraFlavor := "baz" }, ""⟩
           p1 none none,
         Event.PutDeploy p1 p2 none,
         Event.GetDeploy p2 p3 (some x3) none,
         Event.GetDev ⟨{ AppID := "foo" }, ""⟩ v1 none none,
         Event.PutDev v1 v2 none,
         Event.GetDev v2 v3 (some x4) none,
         Event.DeleteDev v3 v4 none,
         Event.GetDev v4 v5 none none,
         Event.DeleteDev v5 v6 none] := by
  obtain ⟨h1, h2, h3, h4, h5, hlog⟩ := TestBackend_pass_sections b s h
  obtain ⟨d, hd, -, -, -, -, -, l1⟩ := blob_pass b s h1
  obtain ⟨a1, a2, a3, x1, -, -, -, -, ha1, -, ha2, -, hx1, -, l2⟩ := infra_pass b _ h2
  obtain ⟨f1, f2, f3, x2, -, -, -, -, hf1, -, hf2, -, hx2, -, l3⟩ :=
    infraFoundation_pass b _ h3
  obtain ⟨p1, p2, p3, x3, -, -, -, -, hp1, -, hp2, -, hx3, -, l4⟩ := deploy_pass b _ h4
  obtain ⟨v1, v2, v3, x4, -, -, t3, -, hv1, -, hv2, -, hx4, hdel, -, l5⟩ := dev_pass b _ h5
  obtain ⟨v4, v5, v6, -, -, -, -, -, -, -, l6⟩ := devDelete_pass b v3 t3 hdel
  refine ⟨d, a1, a2, a3, x1, f1, f2, f3, x2, p1, p2, p3, x3, v1, v2, v3, x4, v4, v5, v6,
    hd, ha1, ha2, hx1, hf1, hf2, hx2, hp1, hp2, hx3, hv1, hv2, hx4, ?_⟩
  rw [hlog, l1, l2, l3, l4, l5, l6]
  rfl

/-! ## The log when the backend writes nothing to the records but the ID -/

theorem infra_eq_mk (a : Infra) (l : Lookup) (o : GoMap) (hl : a.Lookup = l)
    (ho : a.Outputs = o) : a = ⟨l, a.ID, o⟩ := by
  cases a
  simp_all

theorem deploy_eq_mk (a : Deploy) (l : Lookup) (hl : a.Lookup = l) : a = ⟨l, a.ID⟩ := by
  cases a
  simp_all

theorem dev_eq_mk (a : Dev) (l : Lookup) (hl : a.Lookup = l) : a = ⟨l, a.ID⟩ := by
  cases a
  simp_all

theorem infra_pass_keeps {σ : Type} (b : Backend σ) (K : KeepsRecords b) (s : σ)
    (h : (TestBackend_Infra b s).outcome = Outcome.pass) :
    ∃ (id1 : String) (x1 : Infra), id1 ≠ ""
      ∧ Infra.DeepEqual x1 ⟨{ Infra := "foo" }, id1, fooBar⟩ = true
      ∧ (TestBackend_Infra b s).log =
        [Event.GetInfra ⟨{ Infra := "foo" }, "", none⟩ ⟨{ Infra := "foo" }, "", none⟩
           none none,
         Event.PutInfra ⟨{ Infra := "foo" }, "", fooBar⟩ ⟨{ Infra := "foo" }, id1, fooBar⟩
           none,
         Event.GetInfra ⟨{ Infra := "foo" }, id1, fooBar⟩ ⟨{ Infra := "foo" }, id1, fooBar⟩
           (some x1) none] := by
  obtain ⟨a1, a2, a3, x, t1, t2, t3, c1, -, c2, n2, c3, hx, -, hlog⟩ := infra_pass b s h
  have e1 : a1 = ⟨{ Infra := "foo" }, "", none⟩ := by
    have := K.getInfra ⟨{ Infra := "foo" }, "", none⟩ s
    rw [c1] at this
    exact this
  subst e1
  have e2 : a2 = ⟨{ Infra := "foo" }, a2.ID, fooBar⟩ := by
    have := K.putInfra ⟨{ Infra := "foo" }, "", fooBar⟩ t1
    rw [c2] at this
    exact infra_eq_mk a2 _ _ this.1 this.2
  have e3 : a3 = a2 := by
    have := K.getInfra a2 t2
    rw [c3] at this
    exact this
  subst e3
  refine ⟨a3.ID, x, n2, ?_, ?_⟩
  · rw [← e2]
    exact hx
  · rw [hlog]
    rw [← e2]

theorem infraFoundation_pass_keeps {σ : Type} (b : Backend σ) (K : KeepsRecords b) (s : σ)
    (h : (TestBackend_InfraFoundation b s).outcome = Outcome.pass) :
    ∃ (id2 : String) (x2 : Infra), id2 ≠ ""
      ∧ Infra.DeepEqual x2 ⟨{ Infra := "foo", Foundation := "bar" }, id2, fooBar⟩ = true
      ∧ (TestBackend_InfraFoundation b s).log =
        [Event.GetInfra ⟨{ Infra := "foo", Foundation := "bar" }, "", none⟩
           ⟨{ Infra := "foo", Foundation := "bar" }, "", none⟩ none none,
         Event.PutInfra ⟨{ Infra := "foo", Foundation := "bar" }, "", fooBar⟩
           ⟨{ Infra := "foo", Foundation := "bar" }, id2, fooBar⟩ none,
         Event.GetInfra ⟨{ Infra := "foo", Foundation := "bar" }, id2, fooBar⟩
           ⟨{ Infra := "foo", Foundation := "bar" }, id2, fooBar⟩ (some x2) none] := by
  obtain ⟨a1, a2, a3, x, t1, t2, t3, c1, -, c2, n2, c3, hx, -, hlog⟩ :=
    infraFoundation_pass b s h
  have e1 : a1 = ⟨{ Infra := "foo", Foundation := "bar" }, "", none⟩ := by
    have := K.getInfra ⟨{ Infra := "foo", Foundation := "bar" }, "", none⟩ s
    rw [c1] at this
    exact this
  subst e1
  have e2 : a2 = ⟨{ Infra := "foo", Foundation := "bar" }, a2.ID, fooBar⟩ := by
    have := K.putInfra ⟨{ Infra := "foo", Foundation := "bar" }, "", fooBar⟩ t1
    rw [c2] at this
    exact infra_eq_mk a2 _ _ this.1 this.2
  have e3 : a3 = a2 := by
    have := K.getInfra a2 t2
    rw [c3] at this
    exact this
  subst e3
  refine ⟨a3.ID, x, n2, ?_, ?_⟩
  · rw [← e2]
    exact hx
  · rw [hlog]
    rw [← e2]

theorem deploy_pass_keeps {σ : Type} (b : Backend σ) (K : KeepsRecords b) (s : σ)
    (h : (TestBackend_Deploy b s).outcome = Outcome.pass) :
    ∃ (id3 : String) (x3 : Deploy), id3 ≠ ""
      ∧ Deploy.DeepEqual x3
          ⟨{ AppID := "foo", Infra := "bar", InfraFlavor := "baz" }, id3⟩ = true
      ∧ (TestBackend_Deploy b s).log =
        [Event.GetDeploy ⟨{ AppID := "foo", Infra := "bar", InfraFlavor := "baz" }, ""⟩
           ⟨{ AppID := "foo", Infra := "bar", InfraFlavor := "baz" }, ""⟩ none none,
         Event.PutDeploy ⟨{ AppID := "foo", Infra := "bar", InfraFlavor := "baz" }, ""⟩
           ⟨{ AppID := "foo", Infra := "bar", InfraFlavor := "baz" }, id3⟩ none,
         Event.GetDeploy ⟨{ AppID := "foo", Infra := "bar", InfraFlavor := "baz" }, id3⟩
           ⟨{ AppID := "foo", Infra := "bar", InfraFlavor := "baz" }, id3⟩ (some x3)
           none] := by
  obtain ⟨a1, a2, a3, x, t1, t2, t3, c1, -, c2, n2, c3, hx, -, hlog⟩ := deploy_pass b s h
  have e1 : a1 = ⟨{ AppID := "foo", Infra := "bar", InfraFlavor := "baz" }, ""⟩ := by
    have := K.getDeploy ⟨{ AppID := "foo", Infra := "bar", InfraFlavor := "baz" }, ""⟩ s
    rw [c1] at this
    exact this
  subst e1
  have e2 : a2 = ⟨{ AppID := "foo", Infra := "bar", InfraFlavor := "baz" }, a2.ID⟩ := by
    have := K.putDeploy ⟨{ AppID := "foo", Infra := "bar", InfraFlavor := "baz" }, ""⟩ t1
    rw [c2] at this
    exact deploy_eq_mk a2 _ this
  have e3 : a3 = a2 := by
    have := K.getDeploy a2 t2
    rw [c3] at this
    exact this
  subst e3
  refine ⟨a3.ID, x, n2, ?_, ?_⟩
  · rw [← e2]
    exact hx
  · rw [hlog]
    rw [← e2]

theorem dev_pass_keeps {σ : Type} (b : Backend σ) (K : KeepsRecords b) (s : σ)
    (h : (TestBackend_Dev b s).outcome = Outcome.pass) :
    ∃ (id4 : String) (x4 : Dev), id4 ≠ ""
      ∧ Dev.DeepEqual x4 ⟨{ AppID := "foo" }, id4⟩ = true
      ∧ (TestBackend_Dev b s).log =
        [Event.GetDev ⟨{ AppID := "foo" }, ""⟩ ⟨{ AppID := "foo" }, ""⟩ none none,
         Event.PutDev ⟨{ AppID := "foo" }, ""⟩ ⟨{ AppID := "foo" }, id4⟩ none,
         Event.GetDev ⟨{ AppID := "foo" }, id4⟩ ⟨{ AppID := "foo" }, id4⟩ (some x4) none,
         Event.DeleteDev ⟨{ AppID := "foo" }, id4⟩ ⟨{ AppID := "foo" }, id4⟩ none,
         Event.GetDev ⟨{ AppID := "foo" }, id4⟩ ⟨{ AppID := "foo" }, id4⟩ none none,
         Event.DeleteDev ⟨{ AppID := "foo" }, id4⟩ ⟨{ AppID := "foo" }, id4⟩ none] := by
  obtain ⟨a1, a2, a3, x, t1, t2, t3, c1, -, c2, n2, c3, hx, hdel, -, hlog⟩ := dev_pass b s h
  obtain ⟨a4, a5, a6, t4, t5, t6, c4, c5, c6, -, hlog2⟩ := devDelete_pass b a3 t3 hdel
  have e1 : a1 = ⟨{ AppID := "foo" }, ""⟩ := by
    have := K.getDev ⟨{ AppID := "foo" }, ""⟩ s
    rw [c1] at this
    exact this
  subst e1
  have e2 : a2 = ⟨{ AppID := "foo" }, a2.ID⟩ := by
    have := K.putDev ⟨{ AppID := "foo" }, ""⟩ t1
    rw [c2] at this
    exact dev_eq_mk a2 _ this
  have e3 : a3 = a2 := by
    have := K.getDev a2 t2
    rw [c3] at this
    exact this
  subst e3
  have e4 : a4 = a3 := by
    have := K.deleteDev a3 t3
    rw [c4] at this
    exact this
  subst e4
  have e5 : a5 = a4 := by
    have := K.getDev a4 t4
    rw [c5] at this
    exact this
  subst e5
  have e6 : a6 = a5 := by
    have := K.deleteDev a5 t5
    rw [c6] at this
    exact this
  subst e6
  refine ⟨a6.ID, x, n2, ?_, ?_⟩
  · rw [← e2]
    exact hx
  · rw [hlog, hlog2]
    rw [← e2]
    rfl

/-- The log of a run of TestBackend that ran to its end on a backend that
writes nothing to the caller's records but the ID: the records of the calls
are the literals of the source with the four assigned IDs. -/
theorem TestBackend_pass_log_keeps {σ : Type} (b : Backend σ) (K : KeepsRecords b) (s : σ)
    (h : (TestBackend b s).outcome = Outcome.pass) :
    ∃ (d : BlobData) (id1 id2 id3 id4 : String) (x1 x2 : Infra) (x3 : Deploy) (x4 : Dev),
      d.Data = some (NewReader bar) ∧ id1 ≠ "" ∧ id2 ≠ "" ∧ id3 ≠ "" ∧ id4 ≠ ""
      ∧ Infra.DeepEqual x1 ⟨{ Infra := "foo" }, id1, fooBar⟩ = true
      ∧ Infra.DeepEqual x2 ⟨{ Infra := "foo", Foundation := "bar" }, id2, fooBar⟩ = true
      ∧ Deploy.DeepEqual x3
          ⟨{ AppID := "foo", Infra := "bar", InfraFlavor := "baz" }, id3⟩ = true
      ∧ Dev.DeepEqual x4 ⟨{ AppID := "foo" }, id4⟩ = true
      ∧ (TestBackend b s).log =
        [Event.GetBlob "foo" none none,
         Event.PutBlob "foo" barData none,
         Event.GetBlob "foo" (some d) none,
         Event.Close d,
         Event.GetInfra ⟨{ Infra := "foo" }, "", none⟩ ⟨{ Infra := "foo" }, "", none⟩
           none none,
         Event.PutInfra ⟨{ Infra := "foo" }, "", fooBar⟩ ⟨{ Infra := "foo" }, id1, fooBar⟩
           none,
         Event.GetInfra ⟨{ Infra := "foo" }, id1, fooBar⟩ ⟨{ Infra := "foo" }, id1, fooBar⟩
           (some x1) none,
         Event.GetInfra ⟨{ Infra := "foo", Foundation := "bar" }, "", none⟩
           ⟨{ Infra := "foo", Foundation := "bar" }, "", none⟩ none none,
         Event.PutInfra ⟨{ Infra := "foo", Foundation := "bar" }, "", fooBar⟩
           ⟨{ Infra := "foo", Foundation := "bar" }, id2, fooBar⟩ none,
         Event.GetInfra ⟨{ Infra := "foo", Foundation := "bar" }, id2, fooBar⟩
           ⟨{ Infra := "foo", Foundation := "bar" }, id2, fooBar⟩ (some x2) none,
         Event.GetDeploy ⟨{ AppID := "foo", Infra := "bar", InfraFlavor := "baz" }, ""⟩
           ⟨{ AppID := "foo", Infra := "bar", InfraFlavor := "baz" }, ""⟩ none none,
         Event.PutDeploy ⟨{ AppID := "foo", Infra := "bar", InfraFlavor := "baz" }, ""⟩
           ⟨{ AppID := "foo", Infra := "bar", InfraFlavor := "baz" }, id3⟩ none,
         Event.GetDeploy ⟨{ AppID := "foo", Infra := "bar", InfraFlavor := "baz" }, id3⟩
           ⟨{ AppID := "foo", Infra := "bar", InfraFlavor := "baz" }, id3⟩ (some x3) none,
         Event.GetDev ⟨{ AppID := "foo" }, ""⟩ ⟨{ AppID := "foo" }, ""⟩ none none,
         Event.PutDev ⟨{ AppID := "foo" }, ""⟩ ⟨{ AppID := "foo" }, id4⟩ none,
         Event.GetDev ⟨{ AppID := "foo" }, id4⟩ ⟨{ AppID := "foo" }, id4⟩ (some x4) none,
         Event.DeleteDev ⟨{ AppID := "foo" }, id4⟩ ⟨{ AppID := "foo" }, id4⟩ none,
         Event.GetDev ⟨{ AppID := "foo" }, id4⟩ ⟨{ AppID := "foo" }, id4⟩ none none,
         Event.DeleteDev ⟨{ AppID := "foo" }, id4⟩ ⟨{ AppID := "foo" }, id4⟩ none] := by
  obtain ⟨h1, h2, h3, h4, h5, hlog⟩ := TestBackend_pass_sections b s h
  obtain ⟨d, hd, -, -, -, -, -, l1⟩ := blob_pass b s h1
  obtain ⟨id1, x1, n1, e1, l2⟩ := infra_pass_keeps b K _ h2
  obtain ⟨id2, x2, n2, e2, l3⟩ := infraFoundation_pass_keeps b K _ h3
  obtain ⟨id3, x3, n3, e3, l4⟩ := deploy_pass_keeps b K _ h4
  obtain ⟨id4, x4, n4, e4, l5⟩ := dev_pass_keeps b K _ h5
  refine ⟨d, id1, id2, id3, id4, x1, x2, x3, x4, hd, n1, n2, n3, n4, e1, e2, e3, e4, ?_⟩
  rw [hlog, l1, l2, l3, l4, l5]
  rfl

/-! ## From the results of the calls to the outcome of a section -/

theorem infra_of_calls {σ : Type} (b : Backend σ) (s : σ) (a1 a2 a3 x : Infra) (t1 t2 t3 : σ)
    (c1 : b.GetInfra ⟨{ Infra := "foo" }, "", none⟩ s = ⟨a1, none, none, t1⟩) (h0 : a1.ID = "")
    (c2 : b.PutInfra ⟨a1.Lookup, a1.ID, fooBar⟩ t1 = ⟨a2, (), none, t2⟩) (n2 : a2.ID ≠ "")
    (c3 : b.GetInfra a2 t2 = ⟨a3, some x, none, t3⟩) (hx : Infra.DeepEqual x a3 = true) :
    (TestBackend_Infra b s).outcome = Outcome.pass ∧ (TestBackend_Infra b s).state = t3 := by
  have k0 : ¬ a1.ID ≠ "" := not_not_intro h0
  have k6 : ¬ ptrDeepEqual Infra.DeepEqual (some x) (some a3) = false := by
    simp [ptrDeepEqual, hx]
  unfold TestBackend_Infra
  dsimp only
  rw [c1]
  dsimp only
  rw [if_neg (by simp), if_neg (by simp), if_neg k0, c2]
  dsimp only
  rw [if_neg (by simp), if_neg n2, c3]
  dsimp only
  rw [if_neg (by simp), if_neg k6]
  exact ⟨rfl, rfl⟩

theorem infraFoundation_of_calls {σ : Type} (b : Backend σ) (s : σ) (a1 a2 a3 x : Infra) (t1 t2 t3 : σ)
    (c1 : b.GetInfra ⟨{ Infra := "foo", Foundation := "bar" }, "", none⟩ s = ⟨a1, none, none, t1⟩) (h0 : a1.ID = "")
    (c2 : b.PutInfra ⟨a1.Lookup, a1.ID, fooBar⟩ t1 = ⟨a2, (), none, t2⟩) (n2 : a2.ID ≠ "")
    (c3 : b.GetInfra a2 t2 = ⟨a3, some x, none, t3⟩) (hx : Infra.DeepEqual x a3 = true) :
    (TestBackend_InfraFoundation b s).outcome = Outcome.pass ∧ (TestBackend_InfraFoundation b s).state = t3 := by
  have k0 : ¬ a1.ID ≠ "" := not_not_intro h0
  have k6 : ¬ ptrDeepEqual Infra.DeepEqual (some x) (some a3) = false := by
    simp [ptrDeepEqual, hx]
  unfold TestBackend_InfraFoundation
  dsimp only
  rw [c1]
  dsimp only
  rw [if_neg (by simp), if_neg (by simp), if_neg k0, c2]
  dsimp only
  rw [if_neg (by simp), if_neg n2, c3]
  dsimp only
  rw [if_neg (by simp), if_neg k6]
  exact ⟨rfl, rfl⟩

theorem deploy_of_calls {σ : Type} (b : Backend σ) (s : σ) (a1 a2 a3 x : Deploy) (t1 t2 t3 : σ)
    (c1 : b.GetDeploy ⟨{ AppID := "foo", Infra := "bar", InfraFlavor := "baz" }, ""⟩ s = ⟨a1, none, none, t1⟩) (h0 : a1.ID = "")
    (c2 : b.PutDeploy a1 t1 = ⟨a2, (), none, t2⟩) (n2 : a2.ID ≠ "")
    (c3 : b.GetDeploy a2 t2 = ⟨a3, some x, none, t3⟩) (hx : Deploy.DeepEqual x a3 = true) :
    (TestBackend_Deploy b s).outcome = Outcome.pass ∧ (TestBackend_Deploy b s).state = t3 := by
  have k0 : ¬ a1.ID ≠ "" := not_not_intro h0
  have k6 : ¬ ptrDeepEqual Deploy.DeepEqual (some x) (some a3) = false := by
    simp [ptrDeepEqual, hx]
  unfold TestBackend_Deploy
  dsimp only
  rw [c1]
  dsimp only
  rw [if_neg (by simp), if_neg (by simp), if_neg k0, c2]
  dsimp only
  rw [if_neg (by simp), if_neg n2, c3]
  dsimp only
  rw [if_neg (by simp), if_neg k6]
  exact ⟨rfl, rfl⟩

theorem dev_of_calls {σ : Type} (b : Backend σ) (s : σ) (a1 a2 a3 x : Dev) (t1 t2 t3 : σ)
    (c1 : b.GetDev ⟨{ AppID := "foo" }, ""⟩ s = ⟨a1, none, none, t1⟩) (h0 : a1.ID = "")
    (c2 : b.PutDev a1 t1 = ⟨a2, (), none, t2⟩) (n2 : a2.ID ≠ "")
    (c3 : b.GetDev a2 t2 = ⟨a3, some x, none, t3⟩) (hx : Dev.DeepEqual x a3 = true) :
    (TestBackend_Dev b s).outcome = (TestBackend_DevDelete b a3 t3).outcome
      ∧ (TestBackend_Dev b s).state = (TestBackend_DevDelete b a3 t3).state := by
  have k0 : ¬ a1.ID ≠ "" := not_not_intro h0
  have k6 : ¬ ptrDeepEqual Dev.DeepEqual (some x) (some a3) = false := by
    simp [ptrDeepEqual, hx]
  unfold TestBackend_Dev
  dsimp only
  rw [c1]
  dsimp only
  rw [if_neg (by simp), if_neg (by simp), if_neg k0, c2]
  dsimp only
  rw [if_neg (by simp), if_neg n2, c3]
  dsimp only
  rw [if_neg (by simp), if_neg k6]
  rw [andThen_of_pass _ _ rfl]
  exact ⟨rfl, rfl⟩

theorem devDelete_of_calls {σ : Type} (b : Backend σ) (dev : Dev) (s : σ) (a4 a5 a6 : Dev)
    (t4 t5 t6 : σ) (c4 : b.DeleteDev dev s = ⟨a4, (), none, t4⟩)
    (c5 : b.GetDev a4 t4 = ⟨a5, none, none, t5⟩)
    (c6 : b.DeleteDev a5 t5 = ⟨a6, (), none, t6⟩) :
    (TestBackend_DevDelete b dev s).outcome = Outcome.pass
      ∧ (TestBackend_DevDelete b dev s).state = t6 := by
  unfold TestBackend_DevDelete
  dsimp only
  rw [c4]
  dsimp only
  rw [if_neg (by simp), c5]
  dsimp only
  rw [if_neg (by simp), if_neg (by simp), c6]
  dsimp only
  rw [if_neg (by simp)]
  exact ⟨rfl, rfl⟩

theorem infra_of_found {σ : Type} (b : Backend σ) (s : σ) (y : Infra)
    (hv : (b.GetInfra ⟨{ Infra := "foo" }, "", none⟩ s).val = some y) (he : (b.GetInfra ⟨{ Infra := "foo" }, "", none⟩ s).err = none) :
    (TestBackend_Infra b s).outcome = Outcome.fatal 62 "GetInfra (non-exist): infra should be nil" := by
  unfold TestBackend_Infra
  dsimp only
  rw [he, hv, if_neg (by simp), if_pos (by simp)]

theorem infraFoundation_of_found {σ : Type} (b : Backend σ) (s : σ) (y : Infra)
    (hv : (b.GetInfra ⟨{ Infra := "foo", Foundation := "bar" }, "", none⟩ s).val = some y) (he : (b.GetInfra ⟨{ Infra := "foo", Foundation := "bar" }, "", none⟩ s).err = none) :
    (TestBackend_InfraFoundation b s).outcome = Outcome.fatal 93 "GetInfra (non-exist): infra should be nil" := by
  unfold TestBackend_InfraFoundation
  dsimp only
  rw [he, hv, if_neg (by simp), if_pos (by simp)]

theorem deploy_of_found {σ : Type} (b : Backend σ) (s : σ) (y : Deploy)
    (hv : (b.GetDeploy ⟨{ AppID := "foo", Infra := "bar", InfraFlavor := "baz" }, ""⟩ s).val = some y) (he : (b.GetDeploy ⟨{ AppID := "foo", Infra := "bar", InfraFlavor := "baz" }, ""⟩ s).err = none) :
    (TestBackend_Deploy b s).outcome = Outcome.fatal 129 "GetDeploy (non-exist): result should be nil" := by
  unfold TestBackend_Deploy
  dsimp only
  rw [he, hv, if_neg (by simp), if_pos (by simp)]

theorem dev_of_found {σ : Type} (b : Backend σ) (s : σ) (y : Dev)
    (hv : (b.GetDev ⟨{ AppID := "foo" }, ""⟩ s).val = some y) (he : (b.GetDev ⟨{ AppID := "foo" }, ""⟩ s).err = none) :
    (TestBackend_Dev b s).outcome = Outcome.fatal 163 "GetDev (non-exist): result should be nil" := by
  unfold TestBackend_Dev
  dsimp only
  rw [he, hv, if_neg (by simp), if_pos (by simp)]

theorem blob_of_found {σ : Type} (b : Backend σ) (s : σ) (d : BlobData)
    (hv : (b.GetBlob "foo" s).val = some d) (he : (b.GetBlob "foo" s).err = none) :
    (TestBackend_Blob b s).outcome = Outcome.fatal 28 "GetBlob should be nil data" := by
  simp only [TestBackend_Blob, hv, he]
  simp

theorem blob_of_calls {σ : Type} (b : Backend σ) (s : σ) (d : BlobData)
    (v1 : (b.GetBlob "foo" s).val = none) (e1 : (b.GetBlob "foo" s).err = none)
    (e2 : (b.PutBlob "foo" barData (b.GetBlob "foo" s).state).err = none)
    (v3 : (b.GetBlob "foo" (b.PutBlob "foo" barData (b.GetBlob "foo" s).state).state).val
      = some d)
    (e3 : (b.GetBlob "foo" (b.PutBlob "foo" barData (b.GetBlob "foo" s).state).state).err
      = none)
    (hd : d.Data = some (NewReader bar)) :
    (TestBackend_Blob b s).outcome = Outcome.pass
      ∧ (TestBackend_Blob b s).state
        = (b.GetBlob "foo" (b.PutBlob "foo" barData (b.GetBlob "foo" s).state).state).state := by
  simp only [TestBackend_Blob, v1, e1, e2, v3, e3, hd, NewReader]
  simp

/-! ## The sections on a backend that honours the contract -/

theorem RecRet.eq_of {ρ α σ : Type} {r : RecRet ρ α σ} {a : ρ} {v : α} {e : Option Error}
    (hr : r.record = a) (hv : r.val = v) (he : r.err = e) : r = ⟨a, v, e, r.state⟩ := by
  cases r
  simp_all

theorem blob_honours_absent {σ : Type} {b : Backend σ} {c : σ → Store} (H : Honours b c)
    (s : σ) (h0 : (c s).blobs "foo" = none) :
    (TestBackend_Blob b s).outcome = Outcome.pass
      ∧ c (TestBackend_Blob b s).state = (c s).setBlob "foo" (some bar) := by
  obtain ⟨v1, e1, c1⟩ := H.getBlob_absent s "foo" h0
  obtain ⟨e2, c2⟩ := H.putBlob (b.GetBlob "foo" s).state "foo" barData bar rfl
  have hb : (c (b.PutBlob "foo" barData (b.GetBlob "foo" s).state).state).blobs "foo"
      = some bar := by
    rw [c2]
    simp [Store.setBlob, upd]
  obtain ⟨⟨d, v3, hd⟩, e3, c3⟩ := H.getBlob_present _ "foo" bar hb
  obtain ⟨ho, hs⟩ := blob_of_calls b s d v1 e1 e2 v3 e3 hd
  refine ⟨ho, ?_⟩
  rw [hs, c3, c2, c1]

theorem blob_honours_present {σ : Type} {b : Backend σ} {c : σ → Store} (H : Honours b c)
    (s : σ) (bs : Bytes) (h0 : (c s).blobs "foo" = some bs) :
    (TestBackend_Blob b s).outcome = Outcome.fatal 28 "GetBlob should be nil data" := by
  obtain ⟨⟨d, v1, -⟩, e1, -⟩ := H.getBlob_present s "foo" bs h0
  exact blob_of_found b s d v1 e1

theorem blob_honours_pass {σ : Type} {b : Backend σ} {c : σ → Store} (H : Honours b c)
    (s : σ) (hp : (TestBackend_Blob b s).outcome = Outcome.pass) :
    (c s).blobs "foo" = none
      ∧ c (TestBackend_Blob b s).state = (c s).setBlob "foo" (some bar) := by
  cases h0 : (c s).blobs "foo" with
  | none => exact ⟨rfl, (blob_honours_absent H s h0).2⟩
  | some bs =>
    rw [blob_honours_present H s bs h0] at hp
    cases hp

theorem infra_honours_absent {σ : Type} {b : Backend σ} {c : σ → Store} (H : Honours b c)
    (s : σ) (h0 : (c s).infras { Infra := "foo" } = none) :
    (TestBackend_Infra b s).outcome = Outcome.pass
      ∧ ∃ id : String, id ≠ "" ∧ c (TestBackend_Infra b s).state
          = (c s).setInfra { Infra := "foo" } (some ⟨{ Infra := "foo" }, id, fooBar⟩) := by
  obtain ⟨v1, e1, c1, g1⟩ := H.getInfra_absent s ⟨{ Infra := "foo" }, "", none⟩ h0
  have h1 : (c (b.GetInfra ⟨{ Infra := "foo" }, "", none⟩ s).state).infras { Infra := "foo" } = none := by
    rw [c1]
    exact h0
  obtain ⟨i2, k2, o2, e2, c2⟩ := H.putInfra_create (b.GetInfra ⟨{ Infra := "foo" }, "", none⟩ s).state ⟨{ Infra := "foo" }, "", fooBar⟩ h1
  have q2 : (b.PutInfra ⟨{ Infra := "foo" }, "", fooBar⟩ (b.GetInfra ⟨{ Infra := "foo" }, "", none⟩ s).state).record
      = ⟨{ Infra := "foo" }, (b.PutInfra ⟨{ Infra := "foo" }, "", fooBar⟩ (b.GetInfra ⟨{ Infra := "foo" }, "", none⟩ s).state).record.ID, fooBar⟩ := infra_eq_mk _ _ _ k2 o2
  have hb : (c (b.PutInfra ⟨{ Infra := "foo" }, "", fooBar⟩ (b.GetInfra ⟨{ Infra := "foo" }, "", none⟩ s).state).state).infras
      (b.PutInfra ⟨{ Infra := "foo" }, "", fooBar⟩ (b.GetInfra ⟨{ Infra := "foo" }, "", none⟩ s).state).record.Lookup
      = some (b.PutInfra ⟨{ Infra := "foo" }, "", fooBar⟩ (b.GetInfra ⟨{ Infra := "foo" }, "", none⟩ s).state).record := by
    rw [c2, k2]
    simp [Store.setInfra, upd]
  obtain ⟨⟨y, v3, hy⟩, e3, c3, g3⟩ := H.getInfra_present _ _ _ hb
  obtain ⟨ho, hs⟩ := infra_of_calls b s _ _ _ y _ _ _ (RecRet.eq_of g1 v1 e1) rfl
    (RecRet.eq_of rfl rfl e2) i2 (RecRet.eq_of g3 v3 e3) hy
  refine ⟨ho, _, i2, ?_⟩
  rw [hs, c3, c2, c1, ← q2]

theorem infra_honours_present {σ : Type} {b : Backend σ} {c : σ → Store} (H : Honours b c)
    (s : σ) (x : Infra) (h0 : (c s).infras { Infra := "foo" } = some x) :
    (TestBackend_Infra b s).outcome = Outcome.fatal 62 "GetInfra (non-exist): infra should be nil" := by
  obtain ⟨⟨y, v1, -⟩, e1, -, -⟩ := H.getInfra_present s ⟨{ Infra := "foo" }, "", none⟩ x h0
  exact infra_of_found b s y v1 e1

theorem infra_honours_pass {σ : Type} {b : Backend σ} {c : σ → Store} (H : Honours b c)
    (s : σ) (hp : (TestBackend_Infra b s).outcome = Outcome.pass) :
    (c s).infras { Infra := "foo" } = none
      ∧ ∃ id : String, id ≠ "" ∧ c (TestBackend_Infra b s).state
          = (c s).setInfra { Infra := "foo" } (some ⟨{ Infra := "foo" }, id, fooBar⟩) := by
  cases h0 : (c s).infras { Infra := "foo" } with
  | none => exact ⟨rfl, (infra_honours_absent H s h0).2⟩
  | some x =>
    rw [infra_honours_present H s x h0] at hp
    cases hp

theorem infraFoundation_honours_absent {σ : Type} {b : Backend σ} {c : σ → Store} (H : Honours b c)
    (s : σ) (h0 : (c s).infras { Infra := "foo", Foundation := "bar" } = none) :
    (TestBackend_InfraFoundation b s).outcome = Outcome.pass
      ∧ ∃ id : String, id ≠ "" ∧ c (TestBackend_InfraFoundation b s).state
          = (c s).setInfra { Infra := "foo", Foundation := "bar" } (some ⟨{ Infra := "foo", Foundation := "bar" }, id, fooBar⟩) := by
  obtain ⟨v1, e1, c1, g1⟩ := H.getInfra_absent s ⟨{ Infra := "foo", Foundation := "bar" }, "", none⟩ h0
  have h1 : (c (b.GetInfra ⟨{ Infra := "foo", Foundation := "bar" }, "", none⟩ s).state).infras { Infra := "foo", Foundation := "bar" } = none := by
    rw [c1]
    exact h0
  obtain ⟨i2, k2, o2, e2, c2⟩ := H.putInfra_create (b.GetInfra ⟨{ Infra := "foo", Foundation := "bar" }, "", none⟩ s).state ⟨{ Infra := "foo", Foundation := "bar" }, "", fooBar⟩ h1
  have q2 : (b.PutInfra ⟨{ Infra := "foo", Foundation := "bar" }, "", fooBar⟩ (b.GetInfra ⟨{ Infra := "foo", Foundation := "bar" }, "", none⟩ s).state).record
      = ⟨{ Infra := "foo", Foundation := "bar" }, (b.PutInfra ⟨{ Infra := "foo", Foundation := "bar" }, "", fooBar⟩ (b.GetInfra ⟨{ Infra := "foo", Foundation := "bar" }, "", none⟩ s).state).record.ID, fooBar⟩ := infra_eq_mk _ _ _ k2 o2
  have hb : (c (b.PutInfra ⟨{ Infra := "foo", Foundation := "bar" }, "", fooBar⟩ (b.GetInfra ⟨{ Infra := "foo", Foundation := "bar" }, "", none⟩ s).state).state).infras
      (b.PutInfra ⟨{ Infra := "foo", Foundation := "bar" }, "", fooBar⟩ (b.GetInfra ⟨{ Infra := "foo", Foundation := "bar" }, "", none⟩ s).state).record.Lookup
      = some (b.PutInfra ⟨{ Infra := "foo", Foundation := "bar" }, "", fooBar⟩ (b.GetInfra ⟨{ Infra := "foo", Foundation := "bar" }, "", none⟩ s).state).record := by
    rw [c2, k2]
    simp [Store.setInfra, upd]
  obtain ⟨⟨y, v3, hy⟩, e3, c3, g3⟩ := H.getInfra_present _ _ _ hb
  obtain ⟨ho, hs⟩ := infraFoundation_of_calls b s _ _ _ y _ _ _ (RecRet.eq_of g1 v1 e1) rfl
    (RecRet.eq_of rfl rfl e2) i2 (RecRet.eq_of g3 v3 e3) hy
  refine ⟨ho, _, i2, ?_⟩
  rw [hs, c3, c2, c1, ← q2]

theorem infraFoundation_honours_present {σ : Type} {b : Backend σ} {c : σ → Store} (H : Honours b c)
    (s : σ) (x : Infra) (h0 : (c s).infras { Infra := "foo", Foundation := "bar" } = some x) :
    (TestBackend_InfraFoundation b s).outcome = Outcome.fatal 93 "GetInfra (non-exist): infra should be nil" := by
  obtain ⟨⟨y, v1, -⟩, e1, -, -⟩ := H.getInfra_present s ⟨{ Infra := "foo", Foundation := "bar" }, "", none⟩ x h0
  exact infraFoundation_of_found b s y v1 e1

theorem infraFoundation_honours_pass {σ : Type} {b : Backend σ} {c : σ → Store} (H : Honours b c)
    (s : σ) (hp : (TestBackend_InfraFoundation b s).outcome = Outcome.pass) :
    (c s).infras { Infra := "foo", Foundation := "bar" } = none
      ∧ ∃ id : String, id ≠ "" ∧ c (TestBackend_InfraFoundation b s).state
          = (c s).setInfra { Infra := "foo", Foundation := "bar" } (some ⟨{ Infra := "foo", Foundation := "bar" }, id, fooBar⟩) := by
  cases h0 : (c s).infras { Infra := "foo", Foundation := "bar" } with
  | none => exact ⟨rfl, (infraFoundation_honours_absent H s h0).2⟩
  | some x =>
    rw [infraFoundation_honours_present H s x h0] at hp
    cases hp

theorem deploy_honours_absent {σ : Type} {b : Backend σ} {c : σ → Store} (H : Honours b c)
    (s : σ) (h0 : (c s).deploys { AppID := "foo", Infra := "bar", InfraFlavor := "baz" } = none) :
    (TestBackend_Deploy b s).outcome = Outcome.pass
      ∧ ∃ id : String, id ≠ "" ∧ c (TestBackend_Deploy b s).state
          = (c s).setDeploy { AppID := "foo", Infra := "bar", InfraFlavor := "baz" } (some ⟨{ AppID := "foo", Infra := "bar", InfraFlavor := "baz" }, id⟩) := by
  obtain ⟨v1, e1, c1, g1⟩ := H.getDeploy_absent s ⟨{ AppID := "foo", Infra := "bar", InfraFlavor := "baz" }, ""⟩ h0
  have h1 : (c (b.GetDeploy ⟨{ AppID := "foo", Infra := "bar", InfraFlavor := "baz" }, ""⟩ s).state).deploys { AppID := "foo", Infra := "bar", InfraFlavor := "baz" } = none := by
    rw [c1]
    exact h0
  obtain ⟨i2, k2, e2, c2⟩ := H.putDeploy_create (b.GetDeploy ⟨{ AppID := "foo", Infra := "bar", InfraFlavor := "baz" }, ""⟩ s).state ⟨{ AppID := "foo", Infra := "bar", InfraFlavor := "baz" }, ""⟩ h1
  have q2 : (b.PutDeploy ⟨{ AppID := "foo", Infra := "bar", InfraFlavor := "baz" }, ""⟩ (b.GetDeploy ⟨{ AppID := "foo", Infra := "bar", InfraFlavor := "baz" }, ""⟩ s).state).record
      = ⟨{ AppID := "foo", Infra := "bar", InfraFlavor := "baz" }, (b.PutDeploy ⟨{ AppID := "foo", Infra := "bar", InfraFlavor := "baz" }, ""⟩ (b.GetDeploy ⟨{ AppID := "foo", Infra := "bar", InfraFlavor := "baz" }, ""⟩ s).state).record.ID⟩ := deploy_eq_mk _ _ k2
  have hb : (c (b.PutDeploy ⟨{ AppID := "foo", Infra := "bar", InfraFlavor := "baz" }, ""⟩ (b.GetDeploy ⟨{ AppID := "foo", Infra := "bar", InfraFlavor := "baz" }, ""⟩ s).state).state).deploys
      (b.PutDeploy ⟨{ AppID := "foo", Infra := "bar", InfraFlavor := "baz" }, ""⟩ (b.GetDeploy ⟨{ AppID := "foo", Infra := "bar", InfraFlavor := "baz" }, ""⟩ s).state).record.Lookup
      = some (b.PutDeploy ⟨{ AppID := "foo", Infra := "bar", InfraFlavor := "baz" }, ""⟩ (b.GetDeploy ⟨{ AppID := "foo", Infra := "bar", InfraFlavor := "baz" }, ""⟩ s).state).record := by
    rw [c2, k2]
    simp [Store.setDeploy, upd]
  obtain ⟨⟨y, v3, hy⟩, e3, c3, g3⟩ := H.getDeploy_present _ _ _ hb
  obtain ⟨ho, hs⟩ := deploy_of_calls b s _ _ _ y _ _ _ (RecRet.eq_of g1 v1 e1) rfl
    (RecRet.eq_of rfl rfl e2) i2 (RecRet.eq_of g3 v3 e3) hy
  refine ⟨ho, _, i2, ?_⟩
  rw [hs, c3, c2, c1, ← q2]

theorem deploy_honours_present {σ : Type} {b : Backend σ} {c : σ → Store} (H : Honours b c)
    (s : σ) (x : Deploy) (h0 : (c s).deploys { AppID := "foo", Infra := "bar", InfraFlavor := "baz" } = some x) :
    (TestBackend_Deploy b s).outcome = Outcome.fatal 129 "GetDeploy (non-exist): result should be nil" := by
  obtain ⟨⟨y, v1, -⟩, e1, -, -⟩ := H.getDeploy_present s ⟨{ AppID := "foo", Infra := "bar", InfraFlavor := "baz" }, ""⟩ x h0
  exact deploy_of_found b s y v1 e1

theorem deploy_honours_pass {σ : Type} {b : Backend σ} {c : σ → Store} (H : Honours b c)
    (s : σ) (hp : (TestBackend_Deploy b s).outcome = Outcome.pass) :
    (c s).deploys { AppID := "foo", Infra := "bar", InfraFlavor := "baz" } = none
      ∧ ∃ id : String, id ≠ "" ∧ c (TestBackend_Deploy b s).state
          = (c s).setDeploy { AppID := "foo", Infra := "bar", InfraFlavor := "baz" } (some ⟨{ AppID := "foo", Infra := "bar", InfraFlavor := "baz" }, id⟩) := by
  cases h0 : (c s).deploys { AppID := "foo", Infra := "bar", InfraFlavor := "baz" } with
  | none => exact ⟨rfl, (deploy_honours_absent H s h0).2⟩
  | some x =>
    rw [deploy_honours_present H s x h0] at hp
    cases hp

theorem setDev_setDev (st : Store) (k : Lookup) (v w : Option Dev) :
    (st.setDev k v).setDev k w = st.setDev k w := by
  simp only [Store.setDev, Store.mk.injEq, true_and]
  funext x
  simp only [upd]
  split <;> rfl

theorem setDev_none_of_absent (st : Store) (k : Lookup) (h : st.devs k = none) :
    st.setDev k none = st := by
  cases st with
  | mk bl inf dep dev =>
    simp only [Store.setDev, Store.mk.injEq, true_and]
    funext x
    simp only [upd]
    split
    · rename_i hx
      rw [hx]
      exact h.symm
    · rfl

theorem devDelete_honours {σ : Type} {b : Backend σ} {c : σ → Store} (H : Honours b c)
    (dev : Dev) (s : σ) :
    (TestBackend_DevDelete b dev s).outcome = Outcome.pass
      ∧ c (TestBackend_DevDelete b dev s).state = (c s).setDev dev.Lookup none := by
  obtain ⟨e4, g4, c4⟩ := H.deleteDev s dev
  have h4 : (c (b.DeleteDev dev s).state).devs dev.Lookup = none := by
    rw [c4]
    simp [Store.setDev, upd]
  obtain ⟨v5, e5, c5, g5⟩ := H.getDev_absent _ dev h4
  obtain ⟨e6, g6, c6⟩ := H.deleteDev (b.GetDev dev (b.DeleteDev dev s).state).state dev
  obtain ⟨ho, hs⟩ := devDelete_of_calls b dev s dev dev dev _ _ _ (RecRet.eq_of g4 rfl e4)
    (RecRet.eq_of g5 v5 e5) (RecRet.eq_of g6 rfl e6)
  refine ⟨ho, ?_⟩
  rw [hs, c6, c5, c4, setDev_setDev]

theorem dev_honours_absent {σ : Type} {b : Backend σ} {c : σ → Store} (H : Honours b c)
    (s : σ) (h0 : (c s).devs { AppID := "foo" } = none) :
    (TestBackend_Dev b s).outcome = Outcome.pass ∧ c (TestBackend_Dev b s).state = c s := by
  obtain ⟨v1, e1, c1, g1⟩ := H.getDev_absent s ⟨{ AppID := "foo" }, ""⟩ h0
  have h1 : (c (b.GetDev ⟨{ AppID := "foo" }, ""⟩ s).state).devs { AppID := "foo" }
      = none := by
    rw [c1]
    exact h0
  obtain ⟨i2, k2, e2, c2⟩ := H.putDev_create (b.GetDev ⟨{ AppID := "foo" }, ""⟩ s).state
    ⟨{ AppID := "foo" }, ""⟩ h1
  have hb : (c (b.PutDev ⟨{ AppID := "foo" }, ""⟩
      (b.GetDev ⟨{ AppID := "foo" }, ""⟩ s).state).state).devs
      (b.PutDev ⟨{ AppID := "foo" }, ""⟩
        (b.GetDev ⟨{ AppID := "foo" }, ""⟩ s).state).record.Lookup
      = some (b.PutDev ⟨{ AppID := "foo" }, ""⟩
        (b.GetDev ⟨{ AppID := "foo" }, ""⟩ s).state).record := by
    rw [c2, k2]
    simp [Store.setDev, upd]
  obtain ⟨⟨y, v3, hy⟩, e3, c3, g3⟩ := H.getDev_present _ _ _ hb
  obtain ⟨ho, hs⟩ := dev_of_calls b s _ _ _ y _ _ _ (RecRet.eq_of g1 v1 e1) rfl
    (RecRet.eq_of rfl rfl e2) i2 (RecRet.eq_of g3 v3 e3) hy
  obtain ⟨hp, hc⟩ := devDelete_honours H
    (b.PutDev ⟨{ AppID := "foo" }, ""⟩ (b.GetDev ⟨{ AppID := "foo" }, ""⟩ s).state).record
    (b.GetDev (b.PutDev ⟨{ AppID := "foo" }, ""⟩
        (b.GetDev ⟨{ AppID := "foo" }, ""⟩ s).state).record
      (b.PutDev ⟨{ AppID := "foo" }, ""⟩
        (b.GetDev ⟨{ AppID := "foo" }, ""⟩ s).state).state).state
  refine ⟨ho.trans hp, ?_⟩
  rw [hs, hc, c3, c2, c1, k2, setDev_setDev]
  exact setDev_none_of_absent _ _ h0

theorem dev_honours_present {σ : Type} {b : Backend σ} {c : σ → Store} (H : Honours b c)
    (s : σ) (x : Dev) (h0 : (c s).devs { AppID := "foo" } = some x) :
    (TestBackend_Dev b s).outcome
      = Outcome.fatal 163 "GetDev (non-exist): result should be nil" := by
  obtain ⟨⟨y, v1, -⟩, e1, -, -⟩ := H.getDev_present s ⟨{ AppID := "foo" }, ""⟩ x h0
  exact dev_of_found b s y v1 e1

theorem dev_honours_pass {σ : Type} {b : Backend σ} {c : σ → Store} (H : Honours b c)
    (s : σ) (hp : (TestBackend_Dev b s).outcome = Outcome.pass) :
    (c s).devs { AppID := "foo" } = none ∧ c (TestBackend_Dev b s).state = c s := by
  cases h0 : (c s).devs { AppID := "foo" } with
  | none => exact ⟨rfl, (dev_honours_absent H s h0).2⟩
  | some x =>
    rw [dev_honours_present H s x h0] at hp
    cases hp

/-- On a backend that honours the contract and stores nothing under the five
keys of the suite, TestBackend runs to its end, and what it leaves stored is
what was stored before together with the blob, the two Infra records and the
Deploy record. -/
theorem honours_absent_run {σ : Type} {b : Backend σ} {c : σ → Store} (H : Honours b c)
    (s : σ) (hb : (c s).blobs "foo" = none)
    (hi : (c s).infras { Infra := "foo" } = none)
    (hf : (c s).infras { Infra := "foo", Foundation := "bar" } = none)
    (hd : (c s).deploys { AppID := "foo", Infra := "bar", InfraFlavor := "baz" } = none)
    (hv : (c s).devs { AppID := "foo" } = none) :
    (TestBackend b s).outcome = Outcome.pass
      ∧ ∃ id1 id2 id3 : String, id1 ≠ "" ∧ id2 ≠ "" ∧ id3 ≠ ""
        ∧ c (TestBackend b s).state
          = ((((c s).setBlob "foo" (some bar)).setInfra { Infra := "foo" }
                (some ⟨{ Infra := "foo" }, id1, fooBar⟩)).setInfra
                { Infra := "foo", Foundation := "bar" }
                (some ⟨{ Infra := "foo", Foundation := "bar" }, id2, fooBar⟩)).setDeploy
              { AppID := "foo", Infra := "bar", InfraFlavor := "baz" }
              (some ⟨{ AppID := "foo", Infra := "bar", InfraFlavor := "baz" }, id3⟩) := by
  obtain ⟨p1, c1⟩ := blob_honours_absent H s hb
  obtain ⟨p2, id1, n1, c2⟩ := infra_honours_absent H (TestBackend_Blob b s).state
    (by rw [c1]; exact hi)
  obtain ⟨p3, id2, n2, c3⟩ := infraFoundation_honours_absent H
    (TestBackend_Infra b (TestBackend_Blob b s).state).state
    (by rw [c2, c1]; simpa [Store.setInfra, Store.setBlob, upd] using hf)
  obtain ⟨p4, id3, n3, c4⟩ := deploy_honours_absent H
    (TestBackend_InfraFoundation b (TestBackend_Infra b (TestBackend_Blob b s).state).state).state
    (by rw [c3, c2, c1]; exact hd)
  obtain ⟨p5, c5⟩ := dev_honours_absent H
    (TestBackend_Deploy b (TestBackend_InfraFoundation b
      (TestBackend_Infra b (TestBackend_Blob b s).state).state).state).state
    (by rw [c4, c3, c2, c1]; exact hv)
  obtain ⟨ho, hs⟩ := TestBackend_of_sections b s p1 p2 p3 p4
  refine ⟨ho.trans p5, id1, id2, id3, n1, n2, n3, ?_⟩
  rw [hs, c5, c4, c3, c2, c1]

/-- On a backend that honours the contract, a run of TestBackend that ran to
its end started with nothing stored under the five keys of the suite. -/
theorem honours_pass_absent {σ : Type} {b : Backend σ} {c : σ → Store} (H : Honours b c)
    (s : σ) (h : (TestBackend b s).outcome = Outcome.pass) :
    (c s).blobs "foo" = none
      ∧ (c s).infras { Infra := "foo" } = none
      ∧ (c s).infras { Infra := "foo", Foundation := "bar" } = none
      ∧ (c s).deploys { AppID := "foo", Infra := "bar", InfraFlavor := "baz" } = none
      ∧ (c s).devs { AppID := "foo" } = none := by
  obtain ⟨p1, p2, p3, p4, p5, -⟩ := TestBackend_pass_sections b s h
  obtain ⟨a1, c1⟩ := blob_honours_pass H s p1
  obtain ⟨a2, id1, -, c2⟩ := infra_honours_pass H _ p2
  obtain ⟨a3, id2, -, c3⟩ := infraFoundation_honours_pass H _ p3
  obtain ⟨a4, id3, -, c4⟩ := deploy_honours_pass H _ p4
  obtain ⟨a5, -⟩ := dev_honours_pass H _ p5
  rw [c4, c3, c2, c1] at a5
  rw [c3, c2, c1] at a4
  rw [c2, c1] at a3
  rw [c1] at a2
  refine ⟨a1, a2, ?_, a4, a5⟩
  simpa [Store.setInfra, Store.setBlob, upd] using a3

/-! ## Every way a section can end, and the handles in its log -/

theorem handlesClosed_append (a c : List Event) :
    handlesClosed (a ++ c) = handlesClosed a ++ handlesClosed c := by
  simp [handlesClosed, List.filterMap_append]

theorem handlesDelivered_append (a c : List Event) :
    handlesDelivered (a ++ c) = handlesDelivered a ++ handlesDelivered c := by
  simp [handlesDelivered, List.filterMap_append]

theorem infra_quiet {σ : Type} (b : Backend σ) (s : σ) :
    handlesClosed (TestBackend_Infra b s).log = [] ∧ handlesDelivered (TestBackend_Infra b s).log = []
      ∧ ((TestBackend_Infra b s).outcome = Outcome.pass
        ∨ ∃ line f, line ≤ 83 ∧ (TestBackend_Infra b s).outcome = Outcome.fatal line f) := by
  unfold TestBackend_Infra
  dsimp only
  generalize b.GetInfra ⟨{ Infra := "foo" }, "", none⟩ s = r1
  obtain ⟨a1, v1, e1, t1⟩ := r1
  dsimp only
  by_cases h1 : e1 ≠ none
  · rw [if_pos h1]
    exact ⟨rfl, rfl, Or.inr ⟨_, _, by decide, rfl⟩⟩
  rw [if_neg h1]
  by_cases h2 : v1 ≠ none
  · rw [if_pos h2]
    exact ⟨rfl, rfl, Or.inr ⟨_, _, by decide, rfl⟩⟩
  rw [if_neg h2]
  by_cases h0 : a1.ID ≠ ""
  · rw [if_pos h0]
    exact ⟨rfl, rfl, Or.inr ⟨_, _, by decide, rfl⟩⟩
  rw [if_neg h0]
  generalize b.PutInfra ⟨a1.Lookup, a1.ID, fooBar⟩ t1 = r2
  obtain ⟨a2, v2, e2, t2⟩ := r2
  dsimp only
  by_cases h3 : e2 ≠ none
  · rw [if_pos h3]
    exact ⟨rfl, rfl, Or.inr ⟨_, _, by decide, rfl⟩⟩
  rw [if_neg h3]
  by_cases h4 : a2.ID = ""
  · rw [if_pos h4]
    exact ⟨rfl, rfl, Or.inr ⟨_, _, by decide, rfl⟩⟩
  rw [if_neg h4]
  generalize b.GetInfra a2 t2 = r3
  obtain ⟨a3, v3, e3, t3⟩ := r3
  dsimp only
  by_cases h5 : e3 ≠ none
  · rw [if_pos h5]
    exact ⟨rfl, rfl, Or.inr ⟨_, _, by decide, rfl⟩⟩
  rw [if_neg h5]
  by_cases h6 : ptrDeepEqual Infra.DeepEqual v3 (some a3) = false
  · rw [if_pos h6]
    exact ⟨rfl, rfl, Or.inr ⟨_, _, by decide, rfl⟩⟩
  rw [if_neg h6]
  exact ⟨rfl, rfl, Or.inl rfl⟩

theorem infraFoundation_quiet {σ : Type} (b : Backend σ) (s : σ) :
    handlesClosed (TestBackend_InfraFoundation b s).log = [] ∧ handlesDelivered (TestBackend_InfraFoundation b s).log = []
      ∧ ((TestBackend_InfraFoundation b s).outcome = Outcome.pass
        ∨ ∃ line f, line ≤ 114 ∧ (TestBackend_InfraFoundation b s).outcome = Outcome.fatal line f) := by
  unfold TestBackend_InfraFoundation
  dsimp only
  generalize b.GetInfra ⟨{ Infra := "foo", Foundation := "bar" }, "", none⟩ s = r1
  obtain ⟨a1, v1, e1, t1⟩ := r1
  dsimp only
  by_cases h1 : e1 ≠ none
  · rw [if_pos h1]
    exact ⟨rfl, rfl, Or.inr ⟨_, _, by decide, rfl⟩⟩
  rw [if_neg h1]
  by_cases h2 : v1 ≠ none
  · rw [if_pos h2]
    exact ⟨rfl, rfl, Or.inr ⟨_, _, by decide, rfl⟩⟩
  rw [if_neg h2]
  by_cases h0 : a1.ID ≠ ""
  · rw [if_pos h0]
    exact ⟨rfl, rfl, Or.inr ⟨_, _, by decide, rfl⟩⟩
  rw [if_neg h0]
  generalize b.PutInfra ⟨a1.Lookup, a1.ID, fooBar⟩ t1 = r2
  obtain ⟨a2, v2, e2, t2⟩ := r2
  dsimp only
  by_cases h3 : e2 ≠ none
  · rw [if_pos h3]
    exact ⟨rfl, rfl, Or.inr ⟨_, _, by decide, rfl⟩⟩
  rw [if_neg h3]
  by_cases h4 : a2.ID = ""
  · rw [if_pos h4]
    exact ⟨rfl, rfl, Or.inr ⟨_, _, by decide, rfl⟩⟩
  rw [if_neg h4]
  generalize b.GetInfra a2 t2 = r3
  obtain ⟨a3, v3, e3, t3⟩ := r3
  dsimp only
  by_cases h5 : e3 ≠ none
  · rw [if_pos h5]
    exact ⟨rfl, rfl, Or.inr ⟨_, _, by decide, rfl⟩⟩
  rw [if_neg h5]
  by_cases h6 : ptrDeepEqual Infra.DeepEqual v3 (some a3) = false
  · rw [if_pos h6]
    exact ⟨rfl, rfl, Or.inr ⟨_, _, by decide, rfl⟩⟩
  rw [if_neg h6]
  exact ⟨rfl, rfl, Or.inl rfl⟩

theorem deploy_quiet {σ : Type} (b : Backend σ) (s : σ) :
    handlesClosed (TestBackend_Deploy b s).log = [] ∧ handlesDelivered (TestBackend_Deploy b s).log = []
      ∧ ((TestBackend_Deploy b s).outcome = Outcome.pass
        ∨ ∃ line f, line ≤ 149 ∧ (TestBackend_Deploy b s).outcome = Outcome.fatal line f) := by
  unfold TestBackend_Deploy
  dsimp only
  generalize b.GetDeploy ⟨{ AppID := "foo", Infra := "bar", InfraFlavor := "baz" }, ""⟩ s = r1
  obtain ⟨a1, v1, e1, t1⟩ := r1
  dsimp only
  by_cases h1 : e1 ≠ none
  · rw [if_pos h1]
    exact ⟨rfl, rfl, Or.inr ⟨_, _, by decide, rfl⟩⟩
  rw [if_neg h1]
  by_cases h2 : v1 ≠ none
  · rw [if_pos h2]
    exact ⟨rfl, rfl, Or.inr ⟨_, _, by decide, rfl⟩⟩
  rw [if_neg h2]
  by_cases h0 : a1.ID ≠ ""
  · rw [if_pos h0]
    exact ⟨rfl, rfl, Or.inr ⟨_, _, by decide, rfl⟩⟩
  rw [if_neg h0]
  generalize b.PutDeploy a1 t1 = r2
  obtain ⟨a2, v2, e2, t2⟩ := r2
  dsimp only
  by_cases h3 : e2 ≠ none
  · rw [if_pos h3]
    exact ⟨rfl, rfl, Or.inr ⟨_, _, by decide, rfl⟩⟩
  rw [if_neg h3]
  by_cases h4 : a2.ID = ""
  · rw [if_pos h4]
    exact ⟨rfl, rfl, Or.inr ⟨_, _, by decide, rfl⟩⟩
  rw [if_neg h4]
  generalize b.GetDeploy a2 t2 = r3
  obtain ⟨a3, v3, e3, t3⟩ := r3
  dsimp only
  by_cases h5 : e3 ≠ none
  · rw [if_pos h5]
    exact ⟨rfl, rfl, Or.inr ⟨_, _, by decide, rfl⟩⟩
  rw [if_neg h5]
  by_cases h6 : ptrDeepEqual Deploy.DeepEqual v3 (some a3) = false
  · rw [if_pos h6]
    exact ⟨rfl, rfl, Or.inr ⟨_, _, by decide, rfl⟩⟩
  rw [if_neg h6]
  exact ⟨rfl, rfl, Or.inl rfl⟩

theorem devDelete_quiet {σ : Type} (b : Backend σ) (dev : Dev) (s : σ) :
    handlesClosed (TestBackend_DevDelete b dev s).log = []
      ∧ handlesDelivered (TestBackend_DevDelete b dev s).log = []
      ∧ ((TestBackend_DevDelete b dev s).outcome = Outcome.pass
        ∨ ∃ line f, line ≤ 202
          ∧ (TestBackend_DevDelete b dev s).outcome = Outcome.fatal line f) := by
  unfold TestBackend_DevDelete
  dsimp only
  generalize b.DeleteDev dev s = r4
  obtain ⟨a4, v4, e4, t4⟩ := r4
  dsimp only
  by_cases h1 : e4 ≠ none
  · rw [if_pos h1]
    exact ⟨rfl, rfl, Or.inr ⟨_, _, by decide, rfl⟩⟩
  rw [if_neg h1]
  generalize b.GetDev a4 t4 = r5
  obtain ⟨a5, v5, e5, t5⟩ := r5
  dsimp only
  by_cases h2 : e5 ≠ none
  · rw [if_pos h2]
    exact ⟨rfl, rfl, Or.inr ⟨_, _, by decide, rfl⟩⟩
  rw [if_neg h2]
  by_cases h3 : v5 ≠ none
  · rw [if_pos h3]
    exact ⟨rfl, rfl, Or.inr ⟨_, _, by decide, rfl⟩⟩
  rw [if_neg h3]
  generalize b.DeleteDev a5 t5 = r6
  obtain ⟨a6, v6, e6, t6⟩ := r6
  dsimp only
  by_cases h4 : e6 ≠ none
  · rw [if_pos h4]
    exact ⟨rfl, rfl, Or.inr ⟨_, _, by decide, rfl⟩⟩
  rw [if_neg h4]
  exact ⟨rfl, rfl, Or.inl rfl⟩

theorem dev_quiet {σ : Type} (b : Backend σ) (s : σ) :
    handlesClosed (TestBackend_Dev b s).log = [] ∧ handlesDelivered (TestBackend_Dev b s).log = []
      ∧ ((TestBackend_Dev b s).outcome = Outcome.pass
        ∨ ∃ line f, line ≤ 202 ∧ (TestBackend_Dev b s).outcome = Outcome.fatal line f) := by
  unfold TestBackend_Dev
  dsimp only
  generalize b.GetDev ⟨{ AppID := "foo" }, ""⟩ s = r1
  obtain ⟨a1, v1, e1, t1⟩ := r1
  dsimp only
  by_cases h1 : e1 ≠ none
  · rw [if_pos h1]
    exact ⟨rfl, rfl, Or.inr ⟨_, _, by decide, rfl⟩⟩
  rw [if_neg h1]
  by_cases h2 : v1 ≠ none
  · rw [if_pos h2]
    exact ⟨rfl, rfl, Or.inr ⟨_, _, by decide, rfl⟩⟩
  rw [if_neg h2]
  by_cases h0 : a1.ID ≠ ""
  · rw [if_pos h0]
    exact ⟨rfl, rfl, Or.inr ⟨_, _, by decide, rfl⟩⟩
  rw [if_neg h0]
  generalize b.PutDev a1 t1 = r2
  obtain ⟨a2, v2, e2, t2⟩ := r2
  dsimp only
  by_cases h3 : e2 ≠ none
  · rw [if_pos h3]
    exact ⟨rfl, rfl, Or.inr ⟨_, _, by decide, rfl⟩⟩
  rw [if_neg h3]
  by_cases h4 : a2.ID = ""
  · rw [if_pos h4]
    exact ⟨rfl, rfl, Or.inr ⟨_, _, by decide, rfl⟩⟩
  rw [if_neg h4]
  generalize b.GetDev a2 t2 = r3
  obtain ⟨a3, v3, e3, t3⟩ := r3
  dsimp only
  by_cases h5 : e3 ≠ none
  · rw [if_pos h5]
    exact ⟨rfl, rfl, Or.inr ⟨_, _, by decide, rfl⟩⟩
  rw [if_neg h5]
  by_cases h6 : ptrDeepEqual Dev.DeepEqual v3 (some a3) = false
  · rw [if_pos h6]
    exact ⟨rfl, rfl, Or.inr ⟨_, _, by decide, rfl⟩⟩
  rw [if_neg h6]
  rw [andThen_of_pass _ _ rfl]
  obtain ⟨q1, q2, q3⟩ := devDelete_quiet b a3 t3
  dsimp only
  rw [handlesClosed_append, handlesDelivered_append, q1, q2]
  exact ⟨rfl, rfl, q3⟩

theorem blob_outcome {σ : Type} (b : Backend σ) (s : σ) :
    (TestBackend_Blob b s).outcome = Outcome.pass
      ∨ ∃ line, line ≤ 48 ∧ ((TestBackend_Blob b s).outcome = Outcome.panic line
          ∨ ∃ f, (TestBackend_Blob b s).outcome = Outcome.fatal line f) := by
  simp only [TestBackend_Blob]
  split
  · exact Or.inr ⟨24, by decide, Or.inr ⟨_, rfl⟩⟩
  split
  · exact Or.inr ⟨28, by decide, Or.inr ⟨_, rfl⟩⟩
  split
  · exact Or.inr ⟨34, by decide, Or.inr ⟨_, rfl⟩⟩
  split
  · exact Or.inr ⟨40, by decide, Or.inr ⟨_, rfl⟩⟩
  split
  · exact Or.inr ⟨42, by decide, Or.inl rfl⟩
  split
  · exact Or.inr ⟨42, by decide, Or.inl rfl⟩
  · exact Or.inr ⟨42, by decide, Or.inl rfl⟩
  split
  · exact Or.inr ⟨45, by decide, Or.inr ⟨_, rfl⟩⟩
  split
  · exact Or.inr ⟨48, by decide, Or.inr ⟨_, rfl⟩⟩
  exact Or.inl rfl

theorem blob_handles {σ : Type} (b : Backend σ) (s : σ) :
    ((TestBackend_Blob b s).outcome ≠ Outcome.panic 42 →
      handlesClosed (TestBackend_Blob b s).log = handlesDelivered (TestBackend_Blob b s).log)
    ∧ ((TestBackend_Blob b s).outcome = Outcome.panic 42 →
      handlesClosed (TestBackend_Blob b s).log = []) := by
  simp only [TestBackend_Blob]
  split
  · rename_i h
    cases hv : (b.GetBlob "foo" s).val <;> cases he : (b.GetBlob "foo" s).err <;>
      simp_all [handlesClosed, handlesDelivered]
  rename_i h1
  simp only [ne_eq, not_not] at h1
  split
  · rename_i d hd
    simp [handlesClosed, handlesDelivered, h1, hd]
  rename_i hd
  split
  · simp [handlesClosed, handlesDelivered, h1, hd]
  split
  · rename_i h3
    cases hv : (b.GetBlob "foo" (b.PutBlob "foo" barData (b.GetBlob "foo" s).state).state).val
      <;> cases he :
        (b.GetBlob "foo" (b.PutBlob "foo" barData (b.GetBlob "foo" s).state).state).err
      <;> simp_all [handlesClosed, handlesDelivered]
  rename_i h3
  simp only [ne_eq, not_not] at h3
  split
  · rename_i hd3
    simp [handlesClosed, handlesDelivered, h1, hd, h3, hd3]
  rename_i d hd3
  split
  · simp [handlesClosed, handlesDelivered, h1, hd, h3, hd3]
  · simp [handlesClosed, handlesDelivered, h1, hd, h3, hd3]
  split
  · simp [handlesClosed, handlesDelivered, h1, hd, h3, hd3]
  split
  · simp [handlesClosed, handlesDelivered, h1, hd, h3, hd3]
  simp [handlesClosed, handlesDelivered, h1, hd, h3, hd3]

theorem not_panic_of_quiet {o : Outcome} {B : Nat}
    (h : o = Outcome.pass ∨ ∃ line f, line ≤ B ∧ o = Outcome.fatal line f) (n : Nat) :
    o ≠ Outcome.panic n := by
  rcases h with h | ⟨line, f, -, h⟩ <;> rw [h] <;> simp

theorem andThen_quiet {σ : Type} (r : Run σ) (k : σ → Run σ) (B : Nat)
    (hk : ∀ t, handlesClosed (k t).log = [] ∧ handlesDelivered (k t).log = []
      ∧ ((k t).outcome = Outcome.pass
        ∨ ∃ line f, line ≤ B ∧ (k t).outcome = Outcome.fatal line f)) :
    handlesClosed (r.andThen k).log = handlesClosed r.log
      ∧ handlesDelivered (r.andThen k).log = handlesDelivered r.log
      ∧ ((r.andThen k).outcome = Outcome.panic 42 ↔ r.outcome = Outcome.panic 42) := by
  by_cases h : r.outcome = Outcome.pass
  · rw [andThen_of_pass r k h]
    obtain ⟨q1, q2, q3⟩ := hk r.state
    refine ⟨?_, ?_, ?_⟩
    · show handlesClosed (r.log ++ (k r.state).log) = handlesClosed r.log
      rw [handlesClosed_append, q1, List.append_nil]
    · show handlesDelivered (r.log ++ (k r.state).log) = handlesDelivered r.log
      rw [handlesDelivered_append, q2, List.append_nil]
    · show (k r.state).outcome = Outcome.panic 42 ↔ r.outcome = Outcome.panic 42
      constructor
      · intro hp
        exact absurd hp (not_panic_of_quiet q3 42)
      · intro hp
        rw [h] at hp
        cases hp
  · rw [andThen_of_not_pass r k h]
    exact ⟨rfl, rfl, Iff.rfl⟩

/-- The handles in the log of a whole run are those of its Blob section, and
the run stops in the panic of line 42 exactly when the Blob section does. -/
theorem TestBackend_handles {σ : Type} (b : Backend σ) (s : σ) :
    handlesClosed (TestBackend b s).log = handlesClosed (TestBackend_Blob b s).log
      ∧ handlesDelivered (TestBackend b s).log = handlesDelivered (TestBackend_Blob b s).log
      ∧ ((TestBackend b s).outcome = Outcome.panic 42
        ↔ (TestBackend_Blob b s).outcome = Outcome.panic 42) := by
  unfold TestBackend
  obtain ⟨a1, a2, a3⟩ := andThen_quiet (TestBackend_Blob b s) (TestBackend_Infra b) 83
    (infra_quiet b)
  obtain ⟨b1, b2, b3⟩ := andThen_quiet ((TestBackend_Blob b s).andThen (TestBackend_Infra b))
    (TestBackend_InfraFoundation b) 114 (infraFoundation_quiet b)
  obtain ⟨c1, c2, c3⟩ := andThen_quiet (((TestBackend_Blob b s).andThen
    (TestBackend_Infra b)).andThen (TestBackend_InfraFoundation b))
    (TestBackend_Deploy b) 149 (deploy_quiet b)
  obtain ⟨d1, d2, d3⟩ := andThen_quiet ((((TestBackend_Blob b s).andThen
    (TestBackend_Infra b)).andThen (TestBackend_InfraFoundation b)).andThen
    (TestBackend_Deploy b)) (TestBackend_Dev b) 202 (dev_quiet b)
  exact ⟨by rw [d1, c1, b1, a1], by rw [d2, c2, b2, a2], by rw [d3, c3, b3, a3]⟩

/-! ## The concrete backends -/

theorem newID_ne_empty (n : Nat) : newID n ≠ "" := by
  intro h
  have := congrArg String.length h
  simp [newID] at this

theorem mapDeepEqual_refl (m : GoMap) : mapDeepEqual m m = true := by
  cases m with
  | none => rfl
  | some a => simp [mapDeepEqual]

theorem memBackend_honours : Honours memBackend Mem.store where
  getBlob_absent := by
    intro s k h
    simp [memBackend, h]
  getBlob_present := by
    intro s k bs h
    simp [memBackend, h]
  putBlob := by
    intro s k d bs h
    simp [memBackend, h, NewReader]
  getInfra_absent := by
    intro s r h
    simp [memBackend, h]
  getInfra_present := by
    intro s r x h
    simp [memBackend, h, Infra.DeepEqual, mapDeepEqual_refl]
  putInfra_create := by
    intro s r h
    simp [memBackend, h, newID_ne_empty]
  getDeploy_absent := by
    intro s r h
    simp [memBackend, h]
  getDeploy_present := by
    intro s r x h
    simp [memBackend, h, Deploy.DeepEqual]
  putDeploy_create := by
    intro s r h
    simp [memBackend, h, newID_ne_empty]
  getDev_absent := by
    intro s r h
    simp [memBackend, h]
  getDev_present := by
    intro s r x h
    simp [memBackend, h, Dev.DeepEqual]
  putDev_create := by
    intro s r h
    simp [memBackend, h, newID_ne_empty]
  deleteDev := by
    intro s r
    simp [memBackend]

theorem memBackend_keeps : KeepsRecords memBackend where
  getInfra := fun _ _ => rfl
  putInfra := by
    intro r s
    cases h : s.store.infras r.Lookup <;> simp [memBackend, h]
  getDeploy := fun _ _ => rfl
  putDeploy := by
    intro r s
    cases h : s.store.deploys r.Lookup <;> simp [memBackend, h]
  getDev := fun _ _ => rfl
  putDev := by
    intro r s
    cases h : s.store.devs r.Lookup <;> simp [memBackend, h]
  deleteDev := fun _ _ => rfl

/-! ## The claims -/

/-- C1: soundness of the suite. For every backend b whose state stands for a
directory content, that honours the contract of spec sections 4.1 and 4.2 and
starts with an empty content, TestBackend runs to its end: it calls neither
t.Fatalf nor t.Fatal and does not stop in a panic. -/
theorem TestBackend_sound {σ : Type} (b : Backend σ) (content : σ → Store) (s : σ)
    (H : Honours b content) (hempty : content s = Store.empty) :
    (TestBackend b s).outcome = Outcome.pass :=
  (honours_absent_run H s (by rw [hempty]; rfl) (by rw [hempty]; rfl) (by rw [hempty]; rfl)
    (by rw [hempty]; rfl) (by rw [hempty]; rfl)).1

/-- Witness of C1: the in-memory backend honours the contract, starts empty,
and passes. -/
theorem TestBackend_sound_witness :
    Honours memBackend Mem.store ∧ Mem.store Mem.empty = Store.empty
      ∧ (TestBackend memBackend Mem.empty).outcome = Outcome.pass :=
  ⟨memBackend_honours, rfl,
    TestBackend_sound memBackend Mem.store Mem.empty memBackend_honours rfl⟩

/-- C2: absent before create. On a run of TestBackend that passes, each of the
five Get calls made before the matching Put (log positions 0, 4, 7, 10 and 13,
each followed at once by its Put on the same record) was made with the record
of the source literal and returned a nil result and a nil error. When the
backend writes nothing to the caller's records but the ID, the Put calls are
made with the literals themselves. And a backend that reports not-found as an
error does not pass. -/
theorem absent_before_create {σ : Type} (b : Backend σ) (s : σ) :
    ((TestBackend b s).outcome = Outcome.pass →
      ∃ (a1 a2 f1 f2 : Infra) (p1 p2 : Deploy) (v1 v2 : Dev),
        (TestBackend b s).log[0]? = some (Event.GetBlob "foo" none none)
        ∧ (TestBackend b s).log[1]? = some (Event.PutBlob "foo" barData none)
        ∧ (TestBackend b s).log[4]?
            = some (Event.GetInfra ⟨{ Infra := "foo" }, "", none⟩ a1 none none)
        ∧ (TestBackend b s).log[5]?
            = some (Event.PutInfra ⟨a1.Lookup, a1.ID, fooBar⟩ a2 none)
        ∧ (TestBackend b s).log[7]?
            = some (Event.GetInfra ⟨{ Infra := "foo", Foundation := "bar" }, "", none⟩
                f1 none none)
        ∧ (TestBackend b s).log[8]?
            = some (Event.PutInfra ⟨f1.Lookup, f1.ID, fooBar⟩ f2 none)
        ∧ (TestBackend b s).log[10]?
            = some (Event.GetDeploy
                ⟨{ AppID := "foo", Infra := "bar", InfraFlavor := "baz" }, ""⟩ p1 none none)
        ∧ (TestBackend b s).log[11]? = some (Event.PutDeploy p1 p2 none)
        ∧ (TestBackend b s).log[13]?
            = some (Event.GetDev ⟨{ AppID := "foo" }, ""⟩ v1 none none)
        ∧ (TestBackend b s).log[14]? = some (Event.PutDev v1 v2 none))
    ∧ (KeepsRecords b → (TestBackend b s).outcome = Outcome.pass →
      ∃ id1 id2 id3 id4 : String,
        (TestBackend b s).log[5]?
            = some (Event.PutInfra ⟨{ Infra := "foo" }, "", fooBar⟩
                ⟨{ Infra := "foo" }, id1, fooBar⟩ none)
        ∧ (TestBackend b s).log[8]?
            = some (Event.PutInfra ⟨{ Infra := "foo", Foundation := "bar" }, "", fooBar⟩
                ⟨{ Infra := "foo", Foundation := "bar" }, id2, fooBar⟩ none)
        ∧ (TestBackend b s).log[11]?
            = some (Event.PutDeploy
                ⟨{ AppID := "foo", Infra := "bar", InfraFlavor := "baz" }, ""⟩
                ⟨{ AppID := "foo", Infra := "bar", InfraFlavor := "baz" }, id3⟩ none)
        ∧ (TestBackend b s).log[14]?
            = some (Event.PutDev ⟨{ AppID := "foo" }, ""⟩ ⟨{ AppID := "foo" }, id4⟩ none))
    ∧ (ReportsNotFoundAsError b → (TestBackend b s).outcome ≠ Outcome.pass) := by
  refine ⟨?_, ?_, ?_⟩
  · intro h
    obtain ⟨d, a1, a2, a3, x1, f1, f2, f3, x2, p1, p2, p3, x3, v1, v2, v3, x4, v4, v5, v6,
      -, -, -, -, -, -, -, -, -, -, -, -, -, hlog⟩ := TestBackend_pass_log b s h
    refine ⟨a1, a2, f1, f2, p1, p2, v1, v2, ?_⟩
    rw [hlog]
    simp
  · intro K h
    obtain ⟨d, id1, id2, id3, id4, x1, x2, x3, x4, -, -, -, -, -, -, -, -, -, hlog⟩ :=
      TestBackend_pass_log_keeps b K s h
    refine ⟨id1, id2, id3, id4, ?_⟩
    rw [hlog]
    simp
  · intro hr h
    obtain ⟨p1, p2, p3, p4, p5, -⟩ := TestBackend_pass_sections b s h
    obtain ⟨d, -, v1, e1, -⟩ := blob_pass b s p1
    obtain ⟨_, _, _, _, _, _, _, c2, -⟩ := infra_pass b _ p2
    obtain ⟨_, _, _, _, _, _, _, c4, -⟩ := deploy_pass b _ p4
    obtain ⟨_, _, _, _, _, _, _, c5, -⟩ := dev_pass b _ p5
    rcases hr with hr | hr | hr | hr
    · exact hr _ _ v1 e1
    · exact hr _ _ (by rw [c2]) (by rw [c2])
    · exact hr _ _ (by rw [c4]) (by rw [c4])
    · exact hr _ _ (by rw [c5]) (by rw [c5])

/-- Witness of C2: the in-memory backend passes, and its first call is a
GetBlob that returned nil and no error; the backend that reports a missing
blob as an error has the property and does not pass. -/
theorem absent_before_create_witness :
    (TestBackend memBackend Mem.empty).outcome = Outcome.pass
      ∧ (TestBackend memBackend Mem.empty).log[0]? = some (Event.GetBlob "foo" none none)
      ∧ ReportsNotFoundAsError notFoundErrorBackend
      ∧ (TestBackend notFoundErrorBackend Mem.empty).outcome ≠ Outcome.pass :=
  have hr : ReportsNotFoundAsError notFoundErrorBackend := by
    refine Or.inl fun k s => ?_
    cases h : s.store.blobs k <;> simp [notFoundErrorBackend, h]
  ⟨by decide,
    ((absent_before_create memBackend Mem.empty).1 (by decide)).elim fun _ h =>
      h.elim fun _ h => h.elim fun _ h => h.elim fun _ h => h.elim fun _ h =>
        h.elim fun _ h => h.elim fun _ h => h.elim fun _ h => h.1,
    hr, (absent_before_create notFoundErrorBackend Mem.empty).2.2 hr⟩

theorem infraDeepEqual_fields (a c : Infra) (h : Infra.DeepEqual a c = true) :
    a.Lookup = c.Lookup ∧ a.ID = c.ID ∧ mapDeepEqual a.Outputs c.Outputs = true := by
  simpa [Infra.DeepEqual, and_assoc] using h

theorem deployDeepEqual_fields (a c : Deploy) (h : Deploy.DeepEqual a c = true) :
    a.Lookup = c.Lookup ∧ a.ID = c.ID := by
  simpa [Deploy.DeepEqual] using h

theorem devDeepEqual_fields (a c : Dev) (h : Dev.DeepEqual a c = true) :
    a.Lookup = c.Lookup ∧ a.ID = c.ID := by
  simpa [Dev.DeepEqual] using h

/-- C3, counterexample: a backend whose PutInfra writes another Outputs map to
the caller's record passes TestBackend; the GetInfra that follows the first
PutInfra returns a record whose Outputs map has "foo": "CHANGED", which is not
deeply equal to the map with "foo": "bar". -/
theorem pass_with_rewritten_outputs :
    (TestBackend rewritingBackend Mem.empty).outcome = Outcome.pass
      ∧ (TestBackend rewritingBackend Mem.empty).log[6]?
          = some (Event.GetInfra ⟨{ Infra := "foo" }, "#", some [("foo", "CHANGED")]⟩
              ⟨{ Infra := "foo" }, "#", some [("foo", "CHANGED")]⟩
              (some ⟨{ Infra := "foo" }, "#", some [("foo", "CHANGED")]⟩) none)
      ∧ mapDeepEqual (some [("foo", "CHANGED")]) fooBar = false := by
  decide

/-- C3, amended: create assigns identity and round-trips. On a run of
TestBackend that passes, each of the four Put calls (log positions 5, 8, 11
and 14) was made with a record whose ID was empty and left a non-empty ID on
it, and the Get call right after it (positions 6, 9, 12 and 15) was made with
that record and returned, with no error, a record deeply equal to the caller's
record as that Get left it: the same Lookup, the same ID and, for Infra,
deeply equal Outputs. When the backend writes nothing to the caller's records
but the ID, that record has the Lookup of the source literal, the ID that Put
assigned and, for Infra, the Outputs map with "foo": "bar". -/
theorem create_assigns_and_round_trips {σ : Type} (b : Backend σ) (s : σ) :
    ((TestBackend b s).outcome = Outcome.pass →
      ∃ (a1 a2 a3 x1 f1 f2 f3 x2 : Infra) (p1 p2 p3 x3 : Deploy) (v1 v2 v3 x4 : Dev),
        a1.ID = "" ∧ a2.ID ≠ ""
        ∧ (TestBackend b s).log[5]?
            = some (Event.PutInfra ⟨a1.Lookup, a1.ID, fooBar⟩ a2 none)
        ∧ (TestBackend b s).log[6]? = some (Event.GetInfra a2 a3 (some x1) none)
        ∧ Infra.DeepEqual x1 a3 = true
        ∧ x1.Lookup = a3.Lookup ∧ x1.ID = a3.ID ∧ mapDeepEqual x1.Outputs a3.Outputs = true
        ∧ f1.ID = "" ∧ f2.ID ≠ ""
        ∧ (TestBackend b s).log[8]?
            = some (Event.PutInfra ⟨f1.Lookup, f1.ID, fooBar⟩ f2 none)
        ∧ (TestBackend b s).log[9]? = some (Event.GetInfra f2 f3 (some x2) none)
        ∧ Infra.DeepEqual x2 f3 = true
        ∧ x2.Lookup = f3.Lookup ∧ x2.ID = f3.ID ∧ mapDeepEqual x2.Outputs f3.Outputs = true
        ∧ p1.ID = "" ∧ p2.ID ≠ ""
        ∧ (TestBackend b s).log[11]? = some (Event.PutDeploy p1 p2 none)
        ∧ (TestBackend b s).log[12]? = some (Event.GetDeploy p2 p3 (some x3) none)
        ∧ Deploy.DeepEqual x3 p3 = true ∧ x3.Lookup = p3.Lookup ∧ x3.ID = p3.ID
        ∧ v1.ID = "" ∧ v2.ID ≠ ""
        ∧ (TestBackend b s).log[14]? = some (Event.PutDev v1 v2 none)
        ∧ (TestBackend b s).log[15]? = some (Event.GetDev v2 v3 (some x4) none)
        ∧ Dev.DeepEqual x4 v3 = true ∧ x4.Lookup = v3.Lookup ∧ x4.ID = v3.ID)
    ∧ (KeepsRecords b → (TestBackend b s).outcome = Outcome.pass →
      ∃ (id1 id2 id3 id4 : String) (x1 x2 : Infra) (x3 : Deploy) (x4 : Dev),
        id1 ≠ "" ∧ id2 ≠ "" ∧ id3 ≠ "" ∧ id4 ≠ ""
        ∧ (TestBackend b s).log[5]?
            = some (Event.PutInfra ⟨{ Infra := "foo" }, "", fooBar⟩
                ⟨{ Infra := "foo" }, id1, fooBar⟩ none)
        ∧ (TestBackend b s).log[6]?
            = some (Event.GetInfra ⟨{ Infra := "foo" }, id1, fooBar⟩
                ⟨{ Infra := "foo" }, id1, fooBar⟩ (some x1) none)
        ∧ Infra.DeepEqual x1 ⟨{ Infra := "foo" }, id1, fooBar⟩ = true
        ∧ x1.Lookup = { Infra := "foo" } ∧ x1.ID = id1
        ∧ mapDeepEqual x1.Outputs fooBar = true
        ∧ (TestBackend b s).log[8]?
            = some (Event.PutInfra ⟨{ Infra := "foo", Foundation := "bar" }, "", fooBar⟩
                ⟨{ Infra := "foo", Foundation := "bar" }, id2, fooBar⟩ none)
        ∧ (TestBackend b s).log[9]?
            = some (Event.GetInfra ⟨{ Infra := "foo", Foundation := "bar" }, id2, fooBar⟩
                ⟨{ Infra := "foo", Foundation := "bar" }, id2, fooBar⟩ (some x2) none)
        ∧ Infra.DeepEqual x2 ⟨{ Infra := "foo", Foundation := "bar" }, id2, fooBar⟩ = true
        ∧ x2.Lookup = { Infra := "foo", Foundation := "bar" } ∧ x2.ID = id2
        ∧ mapDeepEqual x2.Outputs fooBar = true
        ∧ (TestBackend b s).log[11]?
            = some (Event.PutDeploy
                ⟨{ AppID := "foo", Infra := "bar", InfraFlavor := "baz" }, ""⟩
                ⟨{ AppID := "foo", Infra := "bar", InfraFlavor := "baz" }, id3⟩ none)
        ∧ (TestBackend b s).log[12]?
            = some (Event.GetDeploy
                ⟨{ AppID := "foo", Infra := "bar", InfraFlavor := "baz" }, id3⟩
                ⟨{ AppID := "foo", Infra := "bar", InfraFlavor := "baz" }, id3⟩
                (some x3) none)
        ∧ Deploy.DeepEqual x3
            ⟨{ AppID := "foo", Infra := "bar", InfraFlavor := "baz" }, id3⟩ = true
        ∧ x3.Lookup = { AppID := "foo", Infra := "bar", InfraFlavor := "baz" } ∧ x3.ID = id3
        ∧ (TestBackend b s).log[14]?
            = some (Event.PutDev ⟨{ AppID := "foo" }, ""⟩ ⟨{ AppID := "foo" }, id4⟩ none)
        ∧ (TestBackend b s).log[15]?
            = some (Event.GetDev ⟨{ AppID := "foo" }, id4⟩ ⟨{ AppID := "foo" }, id4⟩
                (some x4) none)
        ∧ Dev.DeepEqual x4 ⟨{ AppID := "foo" }, id4⟩ = true
        ∧ x4.Lookup = { AppID := "foo" } ∧ x4.ID = id4) := by
  constructor
  · intro h
    obtain ⟨d, a1, a2, a3, x1, f1, f2, f3, x2, p1, p2, p3, x3, v1, v2, v3, x4, v4, v5, v6,
      -, ha1, ha2, e1, hf1, hf2, e2, hp1, hp2, e3, hv1, hv2, e4, hlog⟩ :=
      TestBackend_pass_log b s h
    obtain ⟨a1', a2', a3'⟩ := infraDeepEqual_fields _ _ e1
    obtain ⟨b1', b2', b3'⟩ := infraDeepEqual_fields _ _ e2
    obtain ⟨c1', c2'⟩ := deployDeepEqual_fields _ _ e3
    obtain ⟨d1', d2'⟩ := devDeepEqual_fields _ _ e4
    refine ⟨a1, a2, a3, x1, f1, f2, f3, x2, p1, p2, p3, x3, v1, v2, v3, x4, ha1, ha2, ?_, ?_,
      e1, a1', a2', a3', hf1, hf2, ?_, ?_, e2, b1', b2', b3', hp1, hp2, ?_, ?_, e3, c1', c2',
      hv1, hv2, ?_, ?_, e4, d1', d2'⟩ <;>
    · rw [hlog]
      simp
  · intro K h
    obtain ⟨d, id1, id2, id3, id4, x1, x2, x3, x4, -, n1, n2, n3, n4, e1, e2, e3, e4, hlog⟩ :=
      TestBackend_pass_log_keeps b K s h
    obtain ⟨a1, a2, a3⟩ := infraDeepEqual_fields _ _ e1
    obtain ⟨b1, b2, b3⟩ := infraDeepEqual_fields _ _ e2
    obtain ⟨c1, c2⟩ := deployDeepEqual_fields _ _ e3
    obtain ⟨d1, d2⟩ := devDeepEqual_fields _ _ e4
    refine ⟨id1, id2, id3, id4, x1, x2, x3, x4, n1, n2, n3, n4, ?_, ?_, e1, a1, a2, a3, ?_, ?_,
      e2, b1, b2, b3, ?_, ?_, e3, c1, c2, ?_, ?_, e4, d1, d2⟩ <;>
    · rw [hlog]
      simp

/-- Witness of C3, amended: the in-memory backend writes nothing to the
caller's records but the ID and passes, and its first PutInfra was made with
an empty ID and left a non-empty one. -/
theorem create_assigns_and_round_trips_witness :
    KeepsRecords memBackend ∧ (TestBackend memBackend Mem.empty).outcome = Outcome.pass
      ∧ ∃ id1 : String, id1 ≠ "" ∧ (TestBackend memBackend Mem.empty).log[5]?
          = some (Event.PutInfra ⟨{ Infra := "foo" }, "", fooBar⟩
              ⟨{ Infra := "foo" }, id1, fooBar⟩ none) :=
  ⟨memBackend_keeps, by decide,
    ((create_assigns_and_round_trips memBackend Mem.empty).2 memBackend_keeps
      (by decide)).elim fun id1 h =>
      h.elim fun _ h => h.elim fun _ h => h.elim fun _ h => h.elim fun _ h =>
        h.elim fun _ h => h.elim fun _ h => h.elim fun _ h => ⟨id1, h.1, h.2.2.2.2.1⟩⟩

/-- C4: blob round trip. On a run of TestBackend that passes, the PutBlob of
the source "bar" under "foo" (log position 1) returned no error, and the
GetBlob of "foo" that follows (position 2) returned, with no error, a handle
whose stream delivers exactly the bytes "bar" and ends without a read error;
the handle is then closed (position 3). And a backend whose stored bytes
differ from the bytes put does not pass. -/
theorem blob_round_trip {σ : Type} (b : Backend σ) (s : σ) :
    ((TestBackend b s).outcome = Outcome.pass →
      ∃ d : BlobData,
        (TestBackend b s).log[1]? = some (Event.PutBlob "foo" barData none)
        ∧ barData.Data = some (NewReader bar)
        ∧ (TestBackend b s).log[2]? = some (Event.GetBlob "foo" (some d) none)
        ∧ d.Data = some (Reader.stream bar none)
        ∧ (TestBackend b s).log[3]? = some (Event.Close d))
    ∧ (StoresOtherBytes b → (TestBackend b s).outcome ≠ Outcome.pass) := by
  constructor
  · intro h
    obtain ⟨d, a1, a2, a3, x1, f1, f2, f3, x2, p1, p2, p3, x3, v1, v2, v3, x4, v4, v5, v6,
      hd, -, -, -, -, -, -, -, -, -, -, -, -, hlog⟩ := TestBackend_pass_log b s h
    refine ⟨d, ?_, rfl, ?_, hd, ?_⟩ <;>
    · rw [hlog]
      simp
  · intro hr h
    obtain ⟨p1, -⟩ := TestBackend_pass_sections b s h
    obtain ⟨d, hd, -, -, -, hv, -, -⟩ := blob_pass b s p1
    exact hr _ d none hv hd

/-- Witness of C4: the in-memory backend passes and its PutBlob returned no
error; the backend that pads what it stores has the property and does not
pass. -/
theorem blob_round_trip_witness :
    (TestBackend memBackend Mem.empty).outcome = Outcome.pass
      ∧ (TestBackend memBackend Mem.empty).log[1]? = some (Event.PutBlob "foo" barData none)
      ∧ StoresOtherBytes paddingBackend
      ∧ (TestBackend paddingBackend Mem.empty).outcome ≠ Outcome.pass :=
  have hr : StoresOtherBytes paddingBackend := by
    intro s d e hd
    simp [paddingBackend, memBackend, barData, NewReader, Store.setBlob, upd] at hd
    rw [← hd]
    simp [NewReader, bar]
  ⟨by decide,
    ((blob_round_trip memBackend Mem.empty).1 (by decide)).elim fun _ h => h.1,
    hr, (blob_round_trip paddingBackend Mem.empty).2 hr⟩

theorem infraFoundation_of_byName {σ : Type} {b : Backend σ} {index : σ → String → Option Infra}
    (hN : AddressesInfraByName b index) (s : σ)
    (hp : (TestBackend_Infra b s).outcome = Outcome.pass) :
    (TestBackend_InfraFoundation b (TestBackend_Infra b s).state).outcome
      = Outcome.fatal 93 "GetInfra (non-exist): infra should be nil" := by
  obtain ⟨a1, a2, a3, x, t1, t2, t3, c1, -, c2, -, c3, -, hs, -⟩ := infra_pass b s hp
  obtain ⟨-, -, -, n1⟩ := hN.1 ⟨{ Infra := "foo" }, "", none⟩ s
  have n2 := hN.2 ⟨a1.Lookup, a1.ID, fooBar⟩ t1
  obtain ⟨v3, -, i3, -⟩ := hN.1 a2 t2
  rw [c1] at n1
  rw [c2] at n2
  rw [c3] at v3 i3
  have m1 : a1.Lookup.Infra = "foo" := n1
  have m2 : a2.Lookup.Infra = "foo" := n2.trans m1
  have hx : index t3 "foo" = some x := by
    have e : index t3 = index t2 := i3
    rw [e, ← m2]
    exact v3.symm
  obtain ⟨v4, e4, -, -⟩ := hN.1 ⟨{ Infra := "foo", Foundation := "bar" }, "", none⟩ t3
  rw [hs]
  exact infraFoundation_of_found b t3 x (v4.trans hx) e4

/-- C5: foundation is a distinct key, not a wildcard. For every backend that
addresses Infra records by the Infra name alone, so that GetInfra for the
Lookup with Infra "foo" and Foundation "bar" returns the record stored under
the Lookup with Infra "foo": when the run gets as far as the check of GetInfra
with foundation, that is when the Blob section and the Infra section for the
first record run to their end, TestBackend fails in that check, at line 93;
such a backend never passes; and it never gets further than line 93. -/
theorem byName_fails {σ : Type} (b : Backend σ) (index : σ → String → Option Infra) (s : σ)
    (hN : AddressesInfraByName b index) :
    ((TestBackend_Blob b s).outcome = Outcome.pass →
        (TestBackend_Infra b (TestBackend_Blob b s).state).outcome = Outcome.pass →
        (TestBackend b s).outcome
          = Outcome.fatal 93 "GetInfra (non-exist): infra should be nil")
      ∧ (TestBackend b s).outcome ≠ Outcome.pass
      ∧ (∃ line, line ≤ 93 ∧ ((TestBackend b s).outcome = Outcome.panic line
          ∨ ∃ f, (TestBackend b s).outcome = Outcome.fatal line f)) := by
  have key : (TestBackend_Blob b s).outcome = Outcome.pass →
      (TestBackend_Infra b (TestBackend_Blob b s).state).outcome = Outcome.pass →
      (TestBackend b s).outcome
        = Outcome.fatal 93 "GetInfra (non-exist): infra should be nil" := by
    intro h1 h2
    have h3 := infraFoundation_of_byName hN _ h2
    rw [TestBackend_of_foundation_not_pass b s h1 h2 (by rw [h3]; simp), h3]
  refine ⟨key, ?_, ?_⟩
  · intro h
    obtain ⟨p1, p2, -⟩ := TestBackend_pass_sections b s h
    rw [key p1 p2] at h
    cases h
  · rcases blob_outcome b s with h1 | ⟨line, hl, h1⟩
    · rcases (infra_quiet b (TestBackend_Blob b s).state).2.2 with h2 | ⟨line, f, hl, h2⟩
      · exact ⟨93, le_refl _, Or.inr ⟨_, key h1 h2⟩⟩
      · refine ⟨line, by omega, Or.inr ⟨f, ?_⟩⟩
        rw [TestBackend_of_infra_not_pass b s h1 (by rw [h2]; simp), h2]
    · have hn : (TestBackend_Blob b s).outcome ≠ Outcome.pass := by
        rcases h1 with h1 | ⟨f, h1⟩ <;> rw [h1] <;> simp
      rw [TestBackend_of_blob_not_pass b s hn]
      exact ⟨line, by omega, h1⟩

/-- Witness of C5: the backend that keeps Infra records under their name
alone addresses them by name, gets through the Blob checks and the checks on
the first Infra record, and fails at line 93. -/
theorem byName_fails_witness :
    AddressesInfraByName byNameBackend (fun s name => s.store.infras { Infra := name })
      ∧ (TestBackend_Blob byNameBackend Mem.empty).outcome = Outcome.pass
      ∧ (TestBackend_Infra byNameBackend
          (TestBackend_Blob byNameBackend Mem.empty).state).outcome = Outcome.pass
      ∧ (TestBackend byNameBackend Mem.empty).outcome
          = Outcome.fatal 93 "GetInfra (non-exist): infra should be nil" :=
  have hN : AddressesInfraByName byNameBackend
      (fun s name => s.store.infras { Infra := name }) := by
    refine ⟨fun _ _ => ⟨rfl, rfl, rfl, rfl⟩, fun r s => ?_⟩
    cases h : s.store.infras (nameKey r.Lookup) <;> simp [byNameBackend, h]
  ⟨hN, by decide, by decide,
    (byName_fails byNameBackend (fun s name => s.store.infras { Infra := name }) Mem.empty
      hN).1 (by decide) (by decide)⟩

/-- C6, counterexample: a backend with one slot per Infra name, whose reads
compare the whole Lookup, passes TestBackend; yet the second PutInfra (with
Foundation "bar") has overwritten the record of the first, and GetInfra for
the Lookup with Infra "foo" alone returns nil after the run. -/
theorem pass_without_independence :
    (TestBackend clobberBackend Mem.empty).outcome = Outcome.pass
      ∧ (clobberBackend.GetInfra ⟨{ Infra := "foo" }, "", none⟩
          (TestBackend clobberBackend Mem.empty).state).val = none
      ∧ (clobberBackend.GetInfra ⟨{ Infra := "foo" }, "", none⟩
          (TestBackend clobberBackend Mem.empty).state).err = none := by
  decide

/-- C6, amended: on a run of TestBackend that passes, GetInfra with the new
record of line 87, whose Lookup has Infra "foo" and Foundation "bar", returned
nil and no error (log position 7) right after the first record had been read
back (position 6); the second PutInfra (position 8) was made with that same
record as GetInfra left it, with the Outputs map set; the GetInfra that
follows (position 9) was made with the record as PutInfra left it and returned
a record deeply equal to the caller's record; and that call is the only
GetInfra call from the second PutInfra to the end of the run. -/
theorem foundation_is_distinct_read_key {σ : Type} (b : Backend σ) (s : σ)
    (h : (TestBackend b s).outcome = Outcome.pass) :
    ∃ (a2 a3 x1 f1 f2 f3 x2 : Infra),
      (TestBackend b s).log[6]? = some (Event.GetInfra a2 a3 (some x1) none)
      ∧ (TestBackend b s).log[7]?
          = some (Event.GetInfra ⟨{ Infra := "foo", Foundation := "bar" }, "", none⟩
              f1 none none)
      ∧ (TestBackend b s).log[8]?
          = some (Event.PutInfra ⟨f1.Lookup, f1.ID, fooBar⟩ f2 none)
      ∧ (TestBackend b s).log[9]? = some (Event.GetInfra f2 f3 (some x2) none)
      ∧ Infra.DeepEqual x2 f3 = true
      ∧ ((TestBackend b s).log.drop 9).filterMap Event.getInfraArg = [f2] := by
  obtain ⟨d, a1, a2, a3, x1, f1, f2, f3, x2, p1, p2, p3, x3, v1, v2, v3, x4, v4, v5, v6,
    -, -, -, -, -, -, e2, -, -, -, -, -, -, hlog⟩ := TestBackend_pass_log b s h
  refine ⟨a2, a3, x1, f1, f2, f3, x2, ?_, ?_, ?_, ?_, e2, ?_⟩ <;>
  · rw [hlog]
    simp [Event.getInfraArg]

/-- Witness of C6, amended: the in-memory backend passes, and its GetInfra
with foundation returned nil before the second PutInfra. -/
theorem foundation_is_distinct_read_key_witness :
    (TestBackend memBackend Mem.empty).outcome = Outcome.pass
      ∧ ∃ f1 : Infra, (TestBackend memBackend Mem.empty).log[7]?
          = some (Event.GetInfra ⟨{ Infra := "foo", Foundation := "bar" }, "", none⟩
              f1 none none) :=
  ⟨by decide,
    (foundation_is_distinct_read_key memBackend Mem.empty (by decide)).elim fun _ h =>
      h.elim fun _ h => h.elim fun _ h => h.elim fun f1 h => h.elim fun _ h =>
        h.elim fun _ h => h.elim fun _ h => ⟨f1, h.2.1⟩⟩

/-- C7: delete and delete-again. On a run of TestBackend that passes, the
Dev record was there (the GetDev at log position 15 returned it), DeleteDev of
it returned no error (position 16), the GetDev that follows returned nil and
no error (position 17), a second DeleteDev of the now missing record returned
no error (position 18), and that call is the last of the run; each of these
calls is made with the record as the call before it left it. When the backend
writes nothing to the caller's records but the ID, the record is the one with
AppID "foo" and the ID that PutDev assigned. And a backend whose DeleteDev
returns an error for a non-existent record does not pass. -/
theorem delete_and_delete_again {σ : Type} (b : Backend σ) (s : σ) :
    ((TestBackend b s).outcome = Outcome.pass →
      ∃ (v2 v3 x4 v4 v5 v6 : Dev), v2.ID ≠ ""
        ∧ (TestBackend b s).log[15]? = some (Event.GetDev v2 v3 (some x4) none)
        ∧ (TestBackend b s).log[16]? = some (Event.DeleteDev v3 v4 none)
        ∧ (TestBackend b s).log[17]? = some (Event.GetDev v4 v5 none none)
        ∧ (TestBackend b s).log[18]? = some (Event.DeleteDev v5 v6 none)
        ∧ (TestBackend b s).log.length = 19)
    ∧ (KeepsRecords b → (TestBackend b s).outcome = Outcome.pass →
      ∃ (id4 : String) (x4 : Dev), id4 ≠ ""
        ∧ (TestBackend b s).log[15]?
            = some (Event.GetDev ⟨{ AppID := "foo" }, id4⟩ ⟨{ AppID := "foo" }, id4⟩
                (some x4) none)
        ∧ (TestBackend b s).log[16]?
            = some (Event.DeleteDev ⟨{ AppID := "foo" }, id4⟩ ⟨{ AppID := "foo" }, id4⟩ none)
        ∧ (TestBackend b s).log[17]?
            = some (Event.GetDev ⟨{ AppID := "foo" }, id4⟩ ⟨{ AppID := "foo" }, id4⟩
                none none)
        ∧ (TestBackend b s).log[18]?
            = some (Event.DeleteDev ⟨{ AppID := "foo" }, id4⟩ ⟨{ AppID := "foo" }, id4⟩ none)
        ∧ (TestBackend b s).log.length = 19)
    ∧ (DeleteFailsOnMissing b → (TestBackend b s).outcome ≠ Outcome.pass) := by
  refine ⟨?_, ?_, ?_⟩
  · intro h
    obtain ⟨d, a1, a2, a3, x1, f1, f2, f3, x2, p1, p2, p3, x3, v1, v2, v3, x4, v4, v5, v6,
      -, -, -, -, -, -, -, -, -, -, -, hv2, -, hlog⟩ := TestBackend_pass_log b s h
    refine ⟨v2, v3, x4, v4, v5, v6, hv2, ?_, ?_, ?_, ?_, ?_⟩ <;>
    · rw [hlog]
      simp
  · intro K h
    obtain ⟨d, id1, id2, id3, id4, x1, x2, x3, x4, -, -, -, -, n4, -, -, -, -, hlog⟩ :=
      TestBackend_pass_log_keeps b K s h
    refine ⟨id4, x4, n4, ?_, ?_, ?_, ?_, ?_⟩ <;>
    · rw [hlog]
      simp
  · intro hr h
    obtain ⟨-, -, -, -, p5, -⟩ := TestBackend_pass_sections b s h
    obtain ⟨a1, a2, a3, x, t1, t2, t3, -, -, -, -, -, -, hd, -⟩ := dev_pass b _ p5
    obtain ⟨a4, a5, a6, t4, t5, t6, -, c5, c6, -⟩ := devDelete_pass b a3 t3 hd
    have := hr a4 t4 (by rw [c5]) (by rw [c5])
    rw [c5] at this
    exact this (by rw [c6])

/-- Witness of C7: the in-memory backend passes and its last call is a
DeleteDev that returned no error; the backend whose DeleteDev rejects a
missing record has the property and does not pass. -/
theorem delete_and_delete_again_witness :
    (TestBackend memBackend Mem.empty).outcome = Outcome.pass
      ∧ (TestBackend memBackend Mem.empty).log.length = 19
      ∧ DeleteFailsOnMissing strictDeleteBackend
      ∧ (TestBackend strictDeleteBackend Mem.empty).outcome ≠ Outcome.pass :=
  have hr : DeleteFailsOnMissing strictDeleteBackend := by
    intro r s hv _
    have hv2 : s.store.devs r.Lookup = none := hv
    simp [strictDeleteBackend, memBackend, hv2]
  ⟨by decide,
    ((delete_and_delete_again memBackend Mem.empty).1 (by decide)).elim fun _ h =>
      h.elim fun _ h => h.elim fun _ h => h.elim fun _ h => h.elim fun _ h =>
        h.elim fun _ h => h.2.2.2.2.2,
    hr, (delete_and_delete_again strictDeleteBackend Mem.empty).2.2 hr⟩

/-- C8, counterexample: a backend whose PutDev mints a new ID on every call
passes TestBackend; yet two PutDev calls with the same Lookup and payload
leave different IDs, both when the second call is made with a new record of
empty ID and when it is made with the record that carries the first ID. -/
theorem pass_without_idempotent_create :
    (TestBackend mintingBackend Mem.empty).outcome = Outcome.pass
      ∧ (mintingBackend.PutDev ⟨{ AppID := "foo" }, ""⟩ Mem.empty).record.ID = "#"
      ∧ (mintingBackend.PutDev ⟨{ AppID := "foo" }, ""⟩
          (mintingBackend.PutDev ⟨{ AppID := "foo" }, ""⟩ Mem.empty).state).record.ID = "##"
      ∧ (mintingBackend.PutDev ⟨{ AppID := "foo" }, "#"⟩
          (mintingBackend.PutDev ⟨{ AppID := "foo" }, ""⟩ Mem.empty).state).record.ID
          = "##" := by
  decide

/-- C8, amended: on a run of TestBackend that passes, the Put calls on entity
records are exactly four, PutInfra twice, PutDeploy once and PutDev once (log
positions 5, 8, 11 and 14); each is made with a record whose ID is empty,
right after a Get made with the record of a new source literal returned nil
and no error on that same record. The suite never calls Put on a record that
has been given an ID, so the run says nothing about the ID a second Put
returns. -/
theorem each_put_is_a_first_put {σ : Type} (b : Backend σ) (s : σ)
    (h : (TestBackend b s).outcome = Outcome.pass) :
    (TestBackend b s).log.filterMap Event.putClass = ["Infra", "Infra", "Deploy", "Dev"]
      ∧ ∃ (a1 a2 f1 f2 : Infra) (p1 p2 : Deploy) (v1 v2 : Dev),
        a1.ID = "" ∧ f1.ID = "" ∧ p1.ID = "" ∧ v1.ID = ""
        ∧ (TestBackend b s).log[4]?
            = some (Event.GetInfra ⟨{ Infra := "foo" }, "", none⟩ a1 none none)
        ∧ (TestBackend b s).log[5]?
            = some (Event.PutInfra ⟨a1.Lookup, a1.ID, fooBar⟩ a2 none)
        ∧ (TestBackend b s).log[7]?
            = some (Event.GetInfra ⟨{ Infra := "foo", Foundation := "bar" }, "", none⟩
                f1 none none)
        ∧ (TestBackend b s).log[8]?
            = some (Event.PutInfra ⟨f1.Lookup, f1.ID, fooBar⟩ f2 none)
        ∧ (TestBackend b s).log[10]?
            = some (Event.GetDeploy
                ⟨{ AppID := "foo", Infra := "bar", InfraFlavor := "baz" }, ""⟩ p1 none none)
        ∧ (TestBackend b s).log[11]? = some (Event.PutDeploy p1 p2 none)
        ∧ (TestBackend b s).log[13]?
            = some (Event.GetDev ⟨{ AppID := "foo" }, ""⟩ v1 none none)
        ∧ (TestBackend b s).log[14]? = some (Event.PutDev v1 v2 none) := by
  obtain ⟨d, a1, a2, a3, x1, f1, f2, f3, x2, p1, p2, p3, x3, v1, v2, v3, x4, v4, v5, v6,
    -, ha1, -, -, hf1, -, -, hp1, -, -, hv1, -, -, hlog⟩ := TestBackend_pass_log b s h
  refine ⟨?_, a1, a2, f1, f2, p1, p2, v1, v2, ha1, hf1, hp1, hv1, ?_⟩
  · rw [hlog]
    rfl
  · rw [hlog]
    simp

/-- Witness of C8, amended: the in-memory backend passes and makes four Put
calls on entity records. -/
theorem each_put_is_a_first_put_witness :
    (TestBackend memBackend Mem.empty).outcome = Outcome.pass
      ∧ (TestBackend memBackend Mem.empty).log.filterMap Event.putClass
          = ["Infra", "Infra", "Deploy", "Dev"] :=
  ⟨by decide, (each_put_is_a_first_put memBackend Mem.empty (by decide)).1⟩

/-- C9, counterexample: when GetBlob returns a handle together with an error,
TestBackend stops at line 24 and the handle is never closed. -/
theorem handle_with_error_not_closed :
    (TestBackend handleWithErrorBackend Mem.empty).outcome
        = Outcome.fatal 24 "GetBlob error: %s"
      ∧ handlesReturned (TestBackend handleWithErrorBackend Mem.empty).log = [barData]
      ∧ handlesClosed (TestBackend handleWithErrorBackend Mem.empty).log = [] := by
  decide

/-- C9, amended: on every run of TestBackend that does not stop in the panic
of line 42, however it ends, the handles on which Close was called are exactly
the handles that GetBlob returned together with a nil error, each once and in
the order they were returned; and on a run that stops in the panic of line 42
(a nil handle, a nil Data or a Read that panics) no Close call is made. -/
theorem delivered_handles_closed_once {σ : Type} (b : Backend σ) (s : σ) :
    ((TestBackend b s).outcome ≠ Outcome.panic 42 →
      handlesClosed (TestBackend b s).log = handlesDelivered (TestBackend b s).log)
    ∧ ((TestBackend b s).outcome = Outcome.panic 42 →
      handlesClosed (TestBackend b s).log = []) := by
  obtain ⟨hc, hd, hp⟩ := TestBackend_handles b s
  obtain ⟨q1, q2⟩ := blob_handles b s
  rw [hc, hd]
  constructor
  · intro h
    exact q1 fun hb => h (hp.2 hb)
  · intro h
    exact q2 (hp.1 h)

/-- Witness of C9, amended: the in-memory backend passes and closes the one
handle it delivered; with the backend whose handle has a panicking Read the
run stops in the panic of line 42, one handle was delivered and none is
closed. -/
theorem delivered_handles_closed_once_witness :
    (TestBackend memBackend Mem.empty).outcome ≠ Outcome.panic 42
      ∧ handlesClosed (TestBackend memBackend Mem.empty).log
          = handlesDelivered (TestBackend memBackend Mem.empty).log
      ∧ handlesDelivered (TestBackend memBackend Mem.empty).log = [barData]
      ∧ (TestBackend panickingReadBackend Mem.empty).outcome = Outcome.panic 42
      ∧ handlesDelivered (TestBackend panickingReadBackend Mem.empty).log
          = [⟨some Reader.panics⟩]
      ∧ handlesClosed (TestBackend panickingReadBackend Mem.empty).log = [] :=
  ⟨by decide, (delivered_handles_closed_once memBackend Mem.empty).1 (by decide), by decide,
    by decide, by decide,
    (delivered_handles_closed_once panickingReadBackend Mem.empty).2 (by decide)⟩

/-- C10: TestBackend cannot be run again on the state it leaves. On a backend
that honours the contract, when a first run passes, the content it leaves is
the content it started from together with blob "foo", the two Infra records
and the Deploy record, and with no Dev record under AppID "foo"; and a second
run from that state stops at line 28, "GetBlob should be nil data". -/
theorem not_rerunnable {σ : Type} (b : Backend σ) (content : σ → Store) (s : σ)
    (H : Honours b content) (h : (TestBackend b s).outcome = Outcome.pass) :
    (∃ id1 id2 id3 : String, id1 ≠ "" ∧ id2 ≠ "" ∧ id3 ≠ ""
      ∧ content (TestBackend b s).state
          = ((((content s).setBlob "foo" (some bar)).setInfra { Infra := "foo" }
                (some ⟨{ Infra := "foo" }, id1, fooBar⟩)).setInfra
                { Infra := "foo", Foundation := "bar" }
                (some ⟨{ Infra := "foo", Foundation := "bar" }, id2, fooBar⟩)).setDeploy
              { AppID := "foo", Infra := "bar", InfraFlavor := "baz" }
              (some ⟨{ AppID := "foo", Infra := "bar", InfraFlavor := "baz" }, id3⟩)
      ∧ (content (TestBackend b s).state).blobs "foo" = some bar
      ∧ (content (TestBackend b s).state).infras { Infra := "foo" }
          = some ⟨{ Infra := "foo" }, id1, fooBar⟩
      ∧ (content (TestBackend b s).state).infras { Infra := "foo", Foundation := "bar" }
          = some ⟨{ Infra := "foo", Foundation := "bar" }, id2, fooBar⟩
      ∧ (content (TestBackend b s).state).deploys
            { AppID := "foo", Infra := "bar", InfraFlavor := "baz" }
          = some ⟨{ AppID := "foo", Infra := "bar", InfraFlavor := "baz" }, id3⟩
      ∧ (content (TestBackend b s).state).devs { AppID := "foo" } = none)
    ∧ (TestBackend b (TestBackend b s).state).outcome
        = Outcome.fatal 28 "GetBlob should be nil data" := by
  obtain ⟨a1, a2, a3, a4, a5⟩ := honours_pass_absent H s h
  obtain ⟨-, id1, id2, id3, n1, n2, n3, hc⟩ := honours_absent_run H s a1 a2 a3 a4 a5
  have hb : (content (TestBackend b s).state).blobs "foo" = some bar := by
    rw [hc]
    simp [Store.setDeploy, Store.setInfra, Store.setBlob, upd]
  have hk : ({ Infra := "foo" } : Lookup) ≠ { Infra := "foo", Foundation := "bar" } := by
    decide
  refine ⟨⟨id1, id2, id3, n1, n2, n3, hc, hb, ?_, ?_, ?_, ?_⟩, ?_⟩
  · rw [hc]
    simp only [Store.setDeploy, Store.setInfra, Store.setBlob, upd, if_neg hk, if_true]
  · rw [hc]
    simp [Store.setDeploy, Store.setInfra, Store.setBlob, upd]
  · rw [hc]
    simp [Store.setDeploy, Store.setInfra, Store.setBlob, upd]
  · rw [hc]
    simpa [Store.setDeploy, Store.setInfra, Store.setBlob, upd] using a5
  · have hf := blob_honours_present H (TestBackend b s).state bar hb
    rw [TestBackend_of_blob_not_pass b _ (by rw [hf]; simp), hf]

/-- Witness of C10: the in-memory backend honours the contract and passes a
first run from the empty state; a second run from the state it left stops at
line 28. -/
theorem not_rerunnable_witness :
    Honours memBackend Mem.store
      ∧ (TestBackend memBackend Mem.empty).outcome = Outcome.pass
      ∧ (TestBackend memBackend (TestBackend memBackend Mem.empty).state).outcome
          = Outcome.fatal 28 "GetBlob should be nil data" :=
  ⟨memBackend_honours, by decide,
    (not_rerunnable memBackend Mem.store Mem.empty memBackend_honours (by decide)).2⟩

end directory
